import Mathlib

/-!
Verification development for the LibgenMCP repository.

The repository ships several near-duplicate implementations of one MCP tool,
searchAndDownloadBook:

* `src/index.js`, first script ("Book Downloader", v1.0.0): searches the
  hosted Annas-Archive API (JSON hits), selects a hit by `bookIndex`,
  downloads via the API.  Embedded below with the `aa` prefix.
* `src/index.js`, second script ("LibGen Book Finder", v1.0.0 scraper):
  scrapes libgen.is search results, picks the first row in the preferred
  format, resolves a download link on the book page and streams it to disk,
  deleting the partial file on stream/write errors.  Embedded with the `scr`
  prefix.
* `src/unnamed/part_001`, first script (v1.0.12): scrapes libgen.is,
  two-phase selection by `bookIndex`, mirror page "GET" button resolution.
  Embedded with the `v1012` prefix (extraction and the GET-button pass).
* `src/unnamed/part_001`, second script (v1.0.6): scrapes libgen.is,
  auto-selects the first extracted book when `debug` is false.  Embedded
  with the `v106` prefix.
* `src/unnamed/part_002` (v1.0.14): general/fiction domains; the fiction
  extraction loop is embedded with the `fic` prefix.

Handlers are modeled as pure functions from an environment (the responses the
live upstream would give to each HTTP request, in program order) and the tool
arguments to the produced outcome paired with the trace of network/file-system
operations the run performs.  JS numbers used for `bookIndex` are modeled as
rationals (every finite double is rational; only order comparisons and array
indexing are applied to them).  JS strings are modeled as Lean strings.
-/

namespace LibgenMCP

/-- Whether the first character list is a prefix of the second. -/
def charsPrefix : List Char → List Char → Bool
  | [], _ => true
  | _ :: _, [] => false
  | a :: as, b :: bs => a = b && charsPrefix as bs

/-- Whether the first character list occurs contiguously inside the second. -/
def charsInfix (sub : List Char) : List Char → Bool
  | [] => sub.isEmpty
  | c :: cs => charsPrefix sub (c :: cs) || charsInfix sub cs

/-- JS `s.includes(sub)`: substring containment. -/
def jsIncludes (s sub : String) : Bool := charsInfix sub.data s.data

/-- ASCII lower-casing of one character (JS `toLowerCase` on the ASCII range
the scrapers compare). -/
def lowerChar (c : Char) : Char :=
  if 'A' ≤ c ∧ c ≤ 'Z' then Char.ofNat (c.toNat + 32) else c

/-- ASCII upper-casing of one character. -/
def upperChar (c : Char) : Char :=
  if 'a' ≤ c ∧ c ≤ 'z' then Char.ofNat (c.toNat - 32) else c

/-- JS `s.toLowerCase()` (ASCII range). -/
def jsToLower (s : String) : String := String.mk (s.data.map lowerChar)

/-- JS `s.toUpperCase()` (ASCII range). -/
def jsToUpper (s : String) : String := String.mk (s.data.map upperChar)

/-- JS `s.trim()`: strip leading and trailing whitespace. -/
def jsTrim (s : String) : String :=
  String.mk ((s.data.dropWhile Char.isWhitespace).reverse.dropWhile Char.isWhitespace).reverse

/-- JS `s.substring(0, n)`. -/
def strTake (s : String) (n : Nat) : String := String.mk (s.data.take n)

/-- JS `s.startsWith(p)`. -/
def jsStartsWith (s p : String) : Bool := charsPrefix p.data s.data

/-- JS `s.endsWith(p)`. -/
def jsEndsWith (s p : String) : Bool := charsPrefix p.data.reverse s.data.reverse

/-- Split a character list at every occurrence of `sep` (JS `s.split(sep)` for
a one-character separator). -/
def splitChars (sep : Char) : List Char → List (List Char)
  | [] => [[]]
  | c :: cs =>
    match splitChars sep cs with
    | [] => [[]]
    | g :: gs => if c = sep then [] :: g :: gs else (c :: g) :: gs

/-- JS `s.split(sep)` for a one-character separator. -/
def jsSplit (s : String) (sep : Char) : List String :=
  (splitChars sep s.data).map fun l => String.mk l

/-- Character class `[A-F0-9]` under the regex `i` flag (so also `a-f`). -/
def isHexDig (c : Char) : Bool :=
  c.isDigit || ('A' ≤ c && c ≤ 'F') || ('a' ≤ c && c ≤ 'f')

/-- Left-to-right scan for the regex `md5=([A-F0-9]+)` with the `i` flag,
returning the first capture group.  A position where `md5=` is followed by no
hex digit does not match; scanning resumes at the next character, exactly as a
regex engine does. -/
def md5Scan : List Char → Option (List Char)
  | [] => none
  | c1 :: rest1 =>
    match rest1 with
    | c2 :: c3 :: c4 :: rest4 =>
      if c1.toLower = 'm' && c2.toLower = 'd' && c3 = '5' && c4 = '=' then
        let run := rest4.takeWhile isHexDig
        if run.isEmpty then md5Scan rest1 else some run
      else md5Scan rest1
    | _ => none

/-- JS `href.match(/md5=([A-F0-9]+)/i)?.[1]`. -/
def md5Capture (s : String) : Option String :=
  (md5Scan s.data).map fun l => String.mk l

/-- An HTML anchor as the cheerio scrapers read it: the `href` attribute
(`none` models an absent attribute), the element text, whether the element
carries an `id` attribute (the `a[id]` selector), and whether it sits under
`#download h2` (the `#download h2 a` selector). -/
structure Anchor where
  href : Option String
  text : String
  hasId : Bool := false
  underDownloadH2 : Bool := false
deriving Repr, DecidableEq

/-- One `td` cell of a scraped results row: its text content and the anchors
found beneath it. -/
structure Cell where
  text : String
  anchors : List Anchor
deriving Repr, DecidableEq

/-- A text-only cell. -/
def tcell (t : String) : Cell := ⟨t, []⟩

/-- One `tr` row of a scraped results table. -/
structure GenRow where
  cells : List Cell
deriving Repr, DecidableEq

/-- Cheerio cell selection (`columns[k]`, `td:nth-child(k+1)`): selecting a
missing cell yields an empty set, whose text is empty and whose find set is
empty. -/
def cellAt (row : GenRow) (k : Nat) : Cell := row.cells.getD k ⟨"", []⟩

/-- Cheerio attribute lookup (`attr("href")`) on a set: the attribute of the
first element, or undefined when the set is empty. -/
def firstHref : List Anchor → Option String
  | [] => none
  | a :: _ => a.href

/-- Cheerio text of a set: concatenation of the texts of all elements. -/
def anchorsText (l : List Anchor) : String := String.join (l.map (·.text))

/-- The links collected by the page anchor loops: only anchors with an
`href` attribute are kept, and the loops store the trimmed text. -/
structure Link where
  href : String
  text : String
deriving Repr, DecidableEq

/-- An axios error as the catch blocks inspect it: `error.code`,
`error.message`, `error.response?.status` (`none` models a missing response)
and `error.config?.url`. -/
structure AxiosErrInfo where
  code : Option String
  message : String
  status : Option Nat
  url : String
deriving Repr, DecidableEq

/-- A JS exception reaching a catch block: either an axios error or a plain
error (TypeError, ReferenceError, fs errors), for which only `.message` is
consulted. -/
inductive JsErr where
  | axios (e : AxiosErrInfo)
  | plain (message : String)
deriving Repr, DecidableEq

/-! ### The Annas-Archive API variant (src/index.js, first script) -/

/-- One entry of `searchResults.hits`.  A missing JSON field and an
empty-string field are both falsy in the `hit.x || d` defaulting the code
performs, so both are modeled as `""` (and `0` for the numeric filesize). -/
structure Hit where
  md5 : String
  title : String
  author : String
  publisher : String := ""
  year : String := ""
  language : String := ""
  extension : String := ""
  filesize : Nat := 0
  coverUrl : String := ""
  source : String := ""
deriving Repr, DecidableEq

/-- A normalized book record as built in the `for (const hit of ...)` loop. -/
structure AABook where
  title : String
  author : String
  publisher : String
  year : String
  language : String
  extension : String
  filesize : String
  md5 : String
  coverUrl : String
  source : String
deriving Repr, DecidableEq

/-- JS `Math.round(filesize / (1024 * 1024))` for a nonnegative integer byte
count: round-half-up division by 2^20. -/
def jsRoundMB (n : Nat) : Nat := (n + 524288) / 1048576

/-- The extraction loop of src/index.js lines 75-91: hits whose `md5` is falsy
are skipped (`if (!md5) continue`), every other hit yields a book with the
falsy fields defaulted. -/
def aaProcessHits (hits : List Hit) : List AABook :=
  hits.filterMap fun hit =>
    if hit.md5 = "" then none
    else some
      { title := if hit.title = "" then "Unknown Title" else hit.title
        author := if hit.author = "" then "Unknown Author" else hit.author
        publisher := hit.publisher
        year := hit.year
        language := if hit.language = "" then "Unknown" else hit.language
        extension := hit.extension
        filesize := if hit.filesize ≠ 0 then toString (jsRoundMB hit.filesize) ++ " MB"
                    else "Unknown Size"
        md5 := hit.md5
        coverUrl := hit.coverUrl
        source := hit.source }

/-- Tool arguments of the Annas-Archive variant after zod defaulting.
`bookIndex` is a JS number, modeled as a rational. -/
structure AAArgs where
  query : String
  format : String := "any"
  category : String := "fiction, nonfiction"
  limit : Nat := 10
  debug : Bool := false
  openFile : Bool := true
  bookIndex : Option ℚ := none
deriving Repr, DecidableEq

/-- The network requests the Annas-Archive variant can issue, in the order the
code issues them: the search, the `/info` lookup, the `/download` fetch. -/
inductive AAReq where
  | search (q cat skip limit ext sort source : String)
  | info (md5 : String)
  | download (md5 : String)
deriving Repr, DecidableEq

/-- The search request of lines 45-64: `ext` is the preformatted extension
list, `limit` is stringified. -/
def aaSearchReq (a : AAArgs) : AAReq :=
  let lowerCaseFormat := jsToLower a.format
  let formattedExtensions :=
    if lowerCaseFormat = "any" then "pdf, epub, mobi, azw3" else lowerCaseFormat
  AAReq.search a.query a.category "0" (toString a.limit) formattedExtensions
    "mostRelevant" "libgenLi, libgenRs, zLibrary"

/-- The download response data the success path consumes: only the
content-type header influences the outcome fields we track. -/
structure AAFileResp where
  contentType : Option String
deriving Repr, DecidableEq

/-- Upstream behavior for one invocation of the Annas-Archive variant, in
program order.  `searchResp` carries `none` for a response without a `hits`
array (treated like an empty one by line 67); `writeErr` is `some msg` when
`fs.writeFileSync` throws; `execThrows` models a synchronous throw of the
`exec` call issuing the OS open command. -/
structure AAEnv where
  searchResp : Except AxiosErrInfo (Option (List Hit))
  infoResp : Except AxiosErrInfo Unit
  downloadResp : Except AxiosErrInfo AAFileResp
  writeErr : Option String := none
  execThrows : Bool := false
  home : String := "/home/user"
deriving Repr

/-- The distinct text results the Annas-Archive handler can return, one
constructor per `return { content: [{ type: "text", text: ... }] }` site,
carrying the data interpolated into that text. -/
inductive AAOutcome where
  /-- Lines 69 and 95: `No books found for query "q" with format "f". ...` -/
  | noBooksFound (query format : String)
  /-- Lines 108-113: the enumerated candidate list. -/
  | bookList (query : String) (books : List AABook)
  /-- Line 117: `Invalid bookIndex: i. Please select a number between 0 and m.` -/
  | invalidIndex (given : ℚ) (maxIdx : Int)
  /-- Line 198: `Opening "title" by author... (Saved to path)` -/
  | opened (title author path : String)
  /-- Line 186 kept: `Downloaded "title" by author to: path` -/
  | downloaded (title author path : String)
  /-- Line 218: `Failed to connect to Annas Archive API. ... (msg)` -/
  | connectFailed (msg : String)
  /-- Line 220: `The requested book was not found (HTTP 404). URL: url` -/
  | notFound404 (url : String)
  /-- Line 222: `HTTP error s while accessing url. (msg)` -/
  | httpError (status : Nat) (url msg : String)
  /-- Line 215 default: `An error occurred: msg` -/
  | genericError (msg : String)
deriving Repr, DecidableEq

/-- The catch block of src/index.js lines 208-229. -/
def aaCatch (e : JsErr) : AAOutcome :=
  match e with
  | .axios a =>
    if a.code = some "ENOTFOUND" ∨ a.code = some "ECONNREFUSED" ∨
       a.code = some "ETIMEDOUT" ∨ jsIncludes (jsToLower a.message) "timeout" then
      .connectFailed a.message
    else
      match a.status with
      | some 404 => .notFound404 a.url
      | some s => .httpError s a.url a.message
      | none => .genericError a.message
  | .plain m => .genericError m

/-- JS array indexing `books[bookIndex]` for a numeric index: an element is
returned exactly when the number is an integer in `[0, length)`; any other
number is an absent property, yielding undefined. -/
def jsArrayGet {α : Type} (xs : List α) (q : ℚ) : Option α :=
  if q.den = 1 ∧ 0 ≤ q.num ∧ q.num < xs.length then xs.get? q.num.toNat else none

/-- JS `str.replace(/[^a-zA-Z0-9 .-]/g, "_")` as the code applies it. -/
def safeChars (s : String) : String :=
  String.mk (s.data.map fun c =>
    if c.isAlphanum || c = ' ' || c = '.' || c = '-' then c else '_')

/-- The content-type driven extension choice of lines 166-173. -/
def aaFileExt (bookExtension : String) (contentType : Option String) : String :=
  let fileExt0 := if bookExtension = "" then "pdf" else bookExtension
  match contentType with
  | none => fileExt0
  | some ct =>
    if jsIncludes ct "application/pdf" then "pdf"
    else if jsIncludes ct "application/epub+zip" then "epub"
    else if jsIncludes ct "application/zip" then "zip"
    else if jsIncludes ct "application/x-mobipocket-ebook" then "mobi"
    else fileExt0

/-- The destination path of lines 175-181. -/
def aaFilePath (home : String) (book : AABook) (fileExt : String) : String :=
  let safeTitle := strTake (safeChars book.title) 50
  let safeAuthor :=
    if book.author ≠ "" then strTake (safeChars book.author) 30 else "UnknownAuthor"
  home ++ "/Downloads/" ++ safeTitle ++ "_by_" ++ safeAuthor ++ "." ++ fileExt

/-- The Annas-Archive variant handler, src/index.js lines 30-230: outcome plus
the ordered trace of network requests issued.  The trace grows in program
order; every thrown error is routed through `aaCatch` as the catch block
does. -/
def aaHandler (env : AAEnv) (a : AAArgs) : AAOutcome × List AAReq :=
  let sreq := aaSearchReq a
  match env.searchResp with
  | .error e => (aaCatch (.axios e), [sreq])
  | .ok data =>
    let hits := data.getD []
    if hits.isEmpty then (.noBooksFound a.query a.format, [sreq])
    else
      let books := aaProcessHits hits
      if books.isEmpty then (.noBooksFound a.query a.format, [sreq])
      else
        match a.bookIndex with
        | none => (.bookList a.query books, [sreq])
        | some idx =>
          if idx < 0 ∨ (books.length : ℚ) ≤ idx then
            (.invalidIndex idx ((books.length : Int) - 1), [sreq])
          else
            match jsArrayGet books idx with
            | none =>
              -- `books[bookIndex]` is undefined; line 121 then reads
              -- `selectedBook.title`, raising a TypeError (the JS message
              -- quotes the property name: reading title).
              (aaCatch (.plain "Cannot read properties of undefined (reading title)"), [sreq])
            | some selectedBook =>
              let ireq := AAReq.info selectedBook.md5
              match env.infoResp with
              | .error e => (aaCatch (.axios e), [sreq, ireq])
              | .ok _ =>
                let dreq := AAReq.download selectedBook.md5
                match env.downloadResp with
                | .error e => (aaCatch (.axios e), [sreq, ireq, dreq])
                | .ok fileResponse =>
                  let fileExt := aaFileExt selectedBook.extension fileResponse.contentType
                  let filePath := aaFilePath env.home selectedBook fileExt
                  match env.writeErr with
                  | some m => (aaCatch (.plain m), [sreq, ireq, dreq])
                  | none =>
                    if a.openFile && !env.execThrows then
                      (.opened selectedBook.title selectedBook.author filePath, [sreq, ireq, dreq])
                    else
                      (.downloaded selectedBook.title selectedBook.author filePath, [sreq, ireq, dreq])

/-! ### Shared scraper pieces (part_001 both scripts, part_002) -/

/-- One hex digit in upper case, as percent-encoding produces. -/
def hexUpper (n : Nat) : Char := "0123456789ABCDEF".data.getD n '0'

/-- UTF-8 bytes of a code point. -/
def utf8BytesOf (n : Nat) : List Nat :=
  if n < 128 then [n]
  else if n < 2048 then [192 + n / 64, 128 + n % 64]
  else if n < 65536 then [224 + n / 4096, 128 + (n / 64) % 64, 128 + n % 64]
  else [240 + n / 262144, 128 + (n / 4096) % 64, 128 + (n / 64) % 64, 128 + n % 64]

/-- The characters JS encodeURIComponent leaves unescaped. -/
def uriUnreserved (c : Char) : Bool :=
  c.isAlphanum || c = '-' || c = '_' || c = '.' || c = '!' || c = '~' || c = '*' ||
  c = Char.ofNat 39 || c = '(' || c = ')'

/-- JS `encodeURIComponent`. -/
def encodeURIComponent (s : String) : String :=
  String.mk (s.data.foldr (fun c acc =>
    if uriUnreserved c then c :: acc
    else (utf8BytesOf c.toNat).foldr
      (fun b acc2 => '%' :: hexUpper (b / 16) :: hexUpper (b % 16) :: acc2) acc) [])

/-- The part of an absolute URL before its path: `protocol//host`, read up to
the third slash. -/
def takeBeforeNthSlash : Nat → List Char → List Char
  | _, [] => []
  | n, c :: cs =>
    if c = '/' then
      if n ≤ 1 then [] else c :: takeBeforeNthSlash (n - 1) cs
    else c :: takeBeforeNthSlash n cs

/-- The `new URL(u).protocol` plus `//` plus `new URL(u).host` piece for the absolute http URLs
these scripts construct. -/
def urlOrigin (u : String) : String := String.mk (takeBeforeNthSlash 3 u.data)

/-- Drop the last path segment of a URL (everything after the final slash). -/
def dropLastSegment (u : String) : String :=
  String.mk ((u.data.reverse.dropWhile fun c => c ≠ '/').reverse)

/-- JS `new URL(rel, base).href` restricted to the href shapes these scripts
produce: an absolute-path rel is attached to the origin of the base, anything
else replaces the last path segment of the base.  Every theorem below runs on
absolute hrefs, which bypass this resolver through the `startsWith http`
branch that guards each of its uses. -/
def jsNewUrlHref (rel base : String) : String :=
  if jsStartsWith rel "/" then urlOrigin base ++ rel
  else dropLastSegment base ++ rel

/-- The page anchor collections (part_001 lines 146-154 and 539-548):
only anchors with a truthy `href` are kept, storing the href and the trimmed
text. -/
def presentLinks (anchors : List Anchor) : List Link :=
  anchors.filterMap fun a =>
    match a.href with
    | some h => if h ≠ "" then some ⟨h, jsTrim a.text⟩ else none
    | none => none

/-- The mirror-link selection of part_001 lines 167-178 (identical at lines
561-572): first a pass keeping links whose target contains `/main/` with the
selected title in the text, or whose target contains a known mirror-host path;
if that pass is empty, a second pass keeps links whose target contains the md5
case-insensitively with text longer than 10 characters or exactly the GET
label. -/
def mirrorLinksFor (title md5 : String) (allLinks : List Link) : List Link :=
  let pass1 := allLinks.filter fun l =>
    (jsIncludes l.href "/main/" && jsIncludes l.text title) ||
    jsIncludes l.href "books.ms/main/" || jsIncludes l.href "library.lol/main/"
  if pass1.isEmpty then
    allLinks.filter fun l =>
      jsIncludes (jsToLower l.href) (jsToLower md5) &&
      (decide (10 < l.text.length) || jsToUpper l.text == "GET")
  else pass1

/-- The GET-button collection loop (part_001 lines 215-224 and 609-618,
part_002 lines 263-271): anchors with a truthy href whose trimmed text
upper-cases to exactly `GET`, in document order, no fallback of any kind. -/
def getButtons (anchors : List Anchor) : List Link :=
  anchors.filterMap fun a =>
    match a.href with
    | some h =>
      if h ≠ "" ∧ jsToUpper (jsTrim a.text) = "GET" then some ⟨h, jsTrim a.text⟩ else none
    | none => none

/-! ### The v1.0.12 script (src/unnamed/part_001, first script) -/

/-- A book as extracted by the v1.0.12 loop. -/
structure V1012Book where
  id : String
  author : String
  title : String
  publisher : String
  year : String
  pages : String
  language : String
  size : String
  extension : String
  detailsLink : Option String
  md5 : String
deriving Repr, DecidableEq

/-- The extraction loop of part_001 lines 63-95: rows with at least 10
columns; the push guard is only a non-empty title plus the format check
(format equal to any, or extension containing the format); neither `md5` nor
`detailsLink` is required, so both can be absent in a surfaced book. -/
def v1012extractRow (format : String) (row : GenRow) : Option V1012Book :=
  if 10 ≤ row.cells.length then
    let titleAnchors := (cellAt row 2).anchors
    let title := jsTrim (anchorsText titleAnchors)
    let extension := jsToLower (jsTrim (cellAt row 8).text)
    if title ≠ "" ∧ (format = "any" ∨ jsIncludes extension format) then
      some
        { id := jsTrim (cellAt row 0).text
          author := jsTrim (cellAt row 1).text
          title := title
          publisher := jsTrim (cellAt row 3).text
          year := jsTrim (cellAt row 4).text
          pages := jsTrim (cellAt row 5).text
          language := jsTrim (cellAt row 6).text
          size := jsTrim (cellAt row 7).text
          extension := extension
          detailsLink := firstHref (cellAt row 9).anchors
          md5 := ((firstHref titleAnchors).bind md5Capture).getD "" }
    else none
  else none

/-- The books list after the v1.0.12 extraction loop over all result rows. -/
def v1012extract (format : String) (rows : List GenRow) : List V1012Book :=
  rows.filterMap (v1012extractRow format)

/-- The Step-5 outcome of part_001 lines 244-265: either the failure return
(the could-not-find-the-final-download-link message, with or without the debug
payload) or the first GET button. -/
inductive V1012StageB where
  | linkNotFound (title : String) (debug : Bool)
  | button (href text : String)
deriving Repr, DecidableEq

/-- Step 5 of the v1.0.12 script on a fetched mirror page: collect the GET
buttons; an empty collection is the download-link-not-found failure, otherwise
the first button is used. -/
def v1012stageB (title : String) (debug : Bool) (anchors : List Anchor) : V1012StageB :=
  match getButtons anchors with
  | [] => .linkNotFound title debug
  | downloadButton :: _ => .button downloadButton.href downloadButton.text

/-- Modelled from the spec: the Stage-B search order the claim describes — a
first pass for an anchor whose text is a case-insensitive exact match on the
GET label, then a fallback pass for any anchor whose target has a recognized
binary-file extension (.pdf/.epub) or contains a download-path substring
(`get` or `download`); first match wins, and only if both passes find nothing
does resolution fail. -/
def stageBSpecSearch (anchors : List Anchor) : Option Anchor :=
  match anchors.find? (fun a => jsToUpper (jsTrim a.text) == "GET") with
  | some a => some a
  | none =>
    anchors.find? fun a =>
      match a.href with
      | some h =>
        jsEndsWith (jsToLower h) ".pdf" || jsEndsWith (jsToLower h) ".epub" ||
        jsIncludes (jsToLower h) "get" || jsIncludes (jsToLower h) "download"
      | none => false

/-! ### The fiction extraction of v1.0.14 (src/unnamed/part_002) -/

/-- Left-to-right scan for the regex `\/fiction\/([A-F0-9]+)` with the `i`
flag, returning the first capture group. -/
def fictionScan : List Char → Option (List Char)
  | [] => none
  | c1 :: rest1 =>
    match rest1 with
    | c2 :: c3 :: c4 :: c5 :: c6 :: c7 :: c8 :: c9 :: rest9 =>
      if c1 = '/' && c2.toLower = 'f' && c3.toLower = 'i' && c4.toLower = 'c' &&
         c5.toLower = 't' && c6.toLower = 'i' && c7.toLower = 'o' && c8.toLower = 'n' &&
         c9 = '/' then
        let run := rest9.takeWhile isHexDig
        if run.isEmpty then fictionScan rest1 else some run
      else fictionScan rest1
    | _ => none

/-- JS `href?.match(/\/fiction\/([A-F0-9]+)/i)?.[1]`. -/
def fictionCapture (s : String) : Option String :=
  (fictionScan s.data).map fun l => String.mk l

/-- The regex `^([a-zA-Z0-9]+)\s*\/\s*(.*)$` applied to the fiction file-info
cell: a leading alphanumeric run, optional whitespace, a slash, optional
whitespace, and the remainder as second capture.  (A newline inside the
remainder would make the real regex fail; cell texts are single-line.) -/
def fileInfoMatch (s : String) : Option (String × String) :=
  let l := s.data
  let run := l.takeWhile Char.isAlphanum
  if run.isEmpty then none
  else
    match (l.drop run.length).dropWhile Char.isWhitespace with
    | '/' :: r => some (String.mk run, String.mk (r.dropWhile Char.isWhitespace))
    | _ => none

/-- A fiction book as extracted by part_002 lines 55-103. -/
structure FicBook where
  author : String
  title : String
  series : String
  language : String
  extension : String
  size : String
  md5 : String
  downloadPageLink : String
deriving Repr, DecidableEq

/-- The fiction extraction loop of part_002 lines 55-103.  The push guard
requires a truthy title, md5 and downloadPageLink; the second mirror-anchor
loop of lines 82-88 has an empty body and is omitted. -/
def ficExtractRow (lowerCaseFormat : String) (row : GenRow) : Option FicBook :=
  let author := jsTrim ((((cellAt row 0).anchors.head?).map (·.text)).getD "")
  let series := jsTrim (cellAt row 1).text
  let titleLink := ((cellAt row 2).anchors.filter fun a =>
    match a.href with
    | some h => jsStartsWith h "/fiction/"
    | none => false).head?
  let title := jsTrim ((titleLink.map (·.text)).getD "")
  let md5 := (titleLink.bind (·.href)).bind fictionCapture
  let language := jsTrim (cellAt row 3).text
  let fileInfo := jsTrim (cellAt row 4).text
  let parsed := match fileInfoMatch fileInfo with
    | some (e, sz) => (jsToLower e, sz)
    | none => ("", "")
  let mirrorAnchors := (cellAt row 5).anchors
  let downloadPageLink :=
    match md5 with
    | some m =>
      if m ≠ "" then
        (mirrorAnchors.findSome? fun anchor =>
          match anchor.href with
          | some h =>
            if h ≠ "" ∧ (jsIncludes h ("books.ms/fiction/" ++ m) ∨
                (jsIncludes h "books.ms/fiction/" ∧ jsEndsWith h m)) then some h else none
          | none => none).getD ""
      else ""
    | none => ""
  if title ≠ "" ∧ md5.getD "" ≠ "" ∧
     downloadPageLink ≠ "" ∧
     (lowerCaseFormat = "any" ∨ parsed.1 = lowerCaseFormat) then
    some
      { author := author
        title := title
        series := series
        language := language
        extension := parsed.1
        size := parsed.2
        md5 := md5.getD ""
        downloadPageLink := downloadPageLink }
  else none

/-- The books list after the fiction extraction loop. -/
def ficExtract (lowerCaseFormat : String) (rows : List GenRow) : List FicBook :=
  rows.filterMap (ficExtractRow lowerCaseFormat)

/-! ### The v1.0.6 script (src/unnamed/part_001, second script) -/

/-- A book as extracted by the v1.0.6 loop (part_001 lines 470-500). -/
structure V106Book where
  id : String
  md5 : String
  title : String
  author : String
  year : String
  pages : String
  language : String
  size : String
  extension : String
deriving Repr, DecidableEq

/-- One row of the v1.0.6 extraction loop: the push guard requires a truthy
title and md5. -/
def v106extractRow (row : GenRow) : Option V106Book :=
  let titleAnchors := (cellAt row 2).anchors
  let title := jsTrim (anchorsText titleAnchors)
  let md5 := ((firstHref titleAnchors).bind md5Capture).getD ""
  if title ≠ "" ∧ md5 ≠ "" then
    some
      { id := jsTrim (cellAt row 0).text
        md5 := md5
        title := title
        author := jsTrim (cellAt row 1).text
        year := jsTrim (cellAt row 4).text
        pages := jsTrim (cellAt row 5).text
        language := jsTrim (cellAt row 6).text
        size := jsTrim (cellAt row 7).text
        extension := jsTrim (cellAt row 8).text }
  else none

/-- The v1.0.6 extraction: the `if (index < 5)` guard caps the loop to the
first 5 raw rows before the title-and-md5 filter is applied. -/
def v106extract (rows : List GenRow) : List V106Book :=
  (rows.take 5).filterMap v106extractRow

/-- Tool arguments of the v1.0.6 script after zod defaulting: it accepts no
selection index and no openFile flag. -/
structure V106Args where
  query : String
  format : String := "pdf"
  debug : Bool := false
deriving Repr, DecidableEq

/-- The network requests of a v1.0.6 invocation, in program order. -/
inductive V106Req where
  | search (url : String)
  | bookPage (url : String)
  | mirror (url : String)
  | download (url : String)
deriving Repr, DecidableEq

/-- Upstream behavior for one v1.0.6 invocation, in program order. -/
structure V106Env where
  searchResp : Except AxiosErrInfo (List GenRow)
  bookPageResp : Except AxiosErrInfo (List Anchor)
  mirrorPageResp : Except AxiosErrInfo (List Anchor)
  downloadResp : Except AxiosErrInfo AAFileResp
deriving Repr

/-- The distinct text results of the v1.0.6 handler, one constructor per
return site. -/
inductive V106Outcome where
  /-- Line 440: `Unsupported format: f. ...` -/
  | unsupportedFormat (format : String)
  /-- Lines 460-467: `No results found for "q".` (debug variant appends data) -/
  | noResults (query : String) (debug : Bool)
  /-- Lines 505-512: the debug-mode listing of all extracted books. -/
  | bookOptions (query : String) (books : List V106Book)
  /-- Lines 518-523: `Found search results ... but could not extract ...` -/
  | couldNotExtract (query : String)
  /-- Lines 580-593: mirror links not found on the book page. -/
  | mirrorNotFound (title md5 : String) (debug : Bool)
  /-- Lines 641-654: no GET buttons on the download page. -/
  | getNotFound (title : String) (debug : Bool)
  /-- Lines 701-705: the success confirmation (shown unreachable below). -/
  | successSaved (title author fileExt path : String)
  /-- Lines 716-721: `Failed to connect to LibGen. ...` -/
  | connectFailed (msg : String)
  /-- Lines 724-730: `The requested page or file was not found. (HTTP 404)` -/
  | notFound404
  /-- Lines 734-738: `An error occurred: msg` -/
  | genericError (msg : String)
deriving Repr, DecidableEq

/-- The v1.0.6 catch block (part_001 lines 707-739). -/
def v106Catch (e : JsErr) : V106Outcome :=
  match e with
  | .axios a =>
    if a.code = some "ENOTFOUND" ∨ a.code = some "ECONNREFUSED" ∨
       a.code = some "ETIMEDOUT" then
      .connectFailed a.message
    else
      match a.status with
      | some 404 => .notFound404
      | _ => .genericError a.message
  | .plain m => .genericError m

/-- The search URL of the libgen.is scripts (part_001 lines 44 and 444,
part_002 line 105). -/
def libgenSearchUrl (query : String) : String :=
  "https://libgen.is/search.php?req=" ++ encodeURIComponent query ++
    "&open=0&res=25&view=simple&phrase=1&column=def"

/-- The book page URL of part_001 (lines 136 and 530). -/
def libgenBookPageUrl (md5 : String) : String :=
  "https://libgen.is/book/index.php?md5=" ++ md5

/-- The v1.0.6 handler (part_001 second script, lines 433-740): outcome plus
the ordered trace of network requests.  When `debug` is false the first
extracted book is auto-selected (line 526), and after a successful download
the filename construction of lines 688-689 reads the identifiers `bookTitle`
and `bookAuthor`, which are declared nowhere in this script: JS evaluation
throws a ReferenceError there, which the catch block renders as a generic
error, so the success confirmation of lines 701-705 can never be produced. -/
def v106handler (env : V106Env) (a : V106Args) : V106Outcome × List V106Req :=
  let format := jsToLower a.format
  if ¬ (format = "pdf" ∨ format = "epub") then (.unsupportedFormat format, [])
  else
    let sUrl := libgenSearchUrl a.query
    match env.searchResp with
    | .error e => (v106Catch (.axios e), [.search sUrl])
    | .ok rows =>
      if rows.isEmpty then (.noResults a.query a.debug, [.search sUrl])
      else
        let books := v106extract rows
        if a.debug then (.bookOptions a.query books, [.search sUrl])
        else
          match books with
          | [] => (.couldNotExtract a.query, [.search sUrl])
          | selectedBook :: _ =>
            let bUrl := libgenBookPageUrl selectedBook.md5
            match env.bookPageResp with
            | .error e => (v106Catch (.axios e), [.search sUrl, .bookPage bUrl])
            | .ok pageAnchors =>
              let allLinks := presentLinks pageAnchors
              match mirrorLinksFor selectedBook.title selectedBook.md5 allLinks with
              | [] =>
                (.mirrorNotFound selectedBook.title selectedBook.md5 a.debug,
                 [.search sUrl, .bookPage bUrl])
              | mirrorLink :: _ =>
                match env.mirrorPageResp with
                | .error e =>
                  (v106Catch (.axios e), [.search sUrl, .bookPage bUrl, .mirror mirrorLink.href])
                | .ok dlAnchors =>
                  match getButtons dlAnchors with
                  | [] =>
                    (.getNotFound selectedBook.title a.debug,
                     [.search sUrl, .bookPage bUrl, .mirror mirrorLink.href])
                  | downloadButton :: _ =>
                    let absoluteDownloadUrl :=
                      if jsStartsWith downloadButton.href "http" then downloadButton.href
                      else jsNewUrlHref downloadButton.href mirrorLink.href
                    let trace := [V106Req.search sUrl, .bookPage bUrl,
                                  .mirror mirrorLink.href, .download absoluteDownloadUrl]
                    match env.downloadResp with
                    | .error e => (v106Catch (.axios e), trace)
                    | .ok _fileResponse =>
                      -- Lines 674-685 compute the file extension; lines
                      -- 688-689 then evaluate `bookTitle.replace(...)` with
                      -- `bookTitle` (and `bookAuthor`) undeclared, raising
                      -- ReferenceError before any file is written.
                      (v106Catch (.plain "bookTitle is not defined"), trace)

/-! ### The streaming scraper script (src/index.js, second script) -/

/-- Tool arguments of the scraper script after zod defaulting. -/
structure ScrArgs where
  query : String
  format : String := "pdf"
deriving Repr, DecidableEq

/-- Network and file-system operations of a scraper invocation, in program
order. -/
inductive ScrEvent where
  | getSearch (url : String)
  | getBookPage (url : String)
  | ensureDir (path : String)
  | openWrite (path : String)
  | getDownload (url : String)
  | closeWrite (path : String)
  | unlink (path : String)
deriving Repr, DecidableEq

/-- What happens to the piped download stream once the request has been
answered: it finishes, the file writer errors, or the response stream
errors. -/
inductive StreamOutcome where
  | finished
  | writeError (msg : String)
  | streamError (msg : String)
deriving Repr, DecidableEq

/-- Upstream and file-system behavior for one scraper invocation. -/
structure ScrEnv where
  searchResp : Except AxiosErrInfo (List GenRow)
  bookPageResp : Except AxiosErrInfo (List Anchor)
  ensureDirErr : Option String := none
  downloadReqResp : Except AxiosErrInfo Unit := .ok ()
  streamOutcome : StreamOutcome := .finished
  home : String := "/home/user"
deriving Repr

/-- The distinct resolved text results of the scraper handler. -/
inductive ScrOutcome where
  /-- Line 330: `Could not find "q" in F format on LibGens first results page.` -/
  | notFoundOnPage (query format : String)
  /-- Line 396: `Found book page for "t", but could not find a direct download link.` -/
  | noDirectLink (title : String)
  /-- Line 433: `Successfully downloaded "t" as f to your Downloads folder.` -/
  | downloadSuccess (title fileName : String)
  /-- Line 454: `Failed to connect to LibGen or download source. ...` -/
  | connectFailed (msg : String)
  /-- Line 458: `An error occurred: m. Check server console for details.` -/
  | genericError (msg : String)
deriving Repr, DecidableEq

/-- How a scraper invocation ends at the MCP boundary: the async handler
resolves with a structured result, or the promise it returned rejects
(`reject(...)` in the writer/stream error callbacks runs after the try block
has already exited, so the catch of lines 448-459 never sees it). -/
inductive ScrResult where
  | resolved (o : ScrOutcome)
  | rejected (msg : String)
deriving Repr, DecidableEq

/-- The scraper catch block (src/index.js lines 448-459). -/
def scrCatch (e : JsErr) : ScrOutcome :=
  match e with
  | .axios a =>
    if a.code = some "ENOTFOUND" ∨ a.code = some "ECONNREFUSED" ∨
       a.code = some "ETIMEDOUT" then
      .connectFailed a.message
    else .genericError a.message
  | .plain m => .genericError m

/-- The sanitizeFilename helper of the scraper script (lines 257-260): an
empty name becomes `untitled`; characters outside `[a-z0-9_.-]` (with the `i`
flag) become underscores.  The second replace of whitespace runs is vacuous
after the first, which has already replaced all whitespace. -/
def sanitizeFilename (name : String) : String :=
  if name = "" then "untitled"
  else String.mk (name.data.map fun c =>
    if c.isAlphanum || c = '_' || c = '.' || c = '-' then c else '_')

/-- One row of the scraper search loop (lines 300-326): the 9th-column
extension must equal the preferred format and the 3rd-column `a[id]` anchor
must yield a truthy page URL; relative URLs are absolutized against
`http://libgen.is/` after stripping a leading `./`. -/
def scrRowMatch (preferredFormat query : String) (row : GenRow) : Option (String × String) :=
  let extension := jsToLower (jsTrim (cellAt row 8).text)
  let titleLink := ((cellAt row 2).anchors.filter (·.hasId)).head?
  let currentBookTitle :=
    let t := jsTrim ((titleLink.map (·.text)).getD "")
    if t ≠ "" then t else jsTrim ((jsSplit (cellAt row 2).text (Char.ofNat 10)).headD "")
  let currentBookPageUrl :=
    match titleLink.bind (·.href) with
    | some u =>
      if u ≠ "" ∧ ¬ jsStartsWith u "http" = true then
        some ("http://libgen.is/" ++
          (if jsStartsWith u "./" then String.mk (u.data.drop 2) else u))
      else some u
    | none => none
  let truthyUrl := currentBookPageUrl.getD "" ≠ ""
  if extension = preferredFormat ∧ truthyUrl then
    some (currentBookPageUrl.getD "", if currentBookTitle ≠ "" then currentBookTitle else query)
  else none

/-- The scraper search scan: rows matched by `table.c tr:has(td:nth-child(9))`
(at least 9 cells), first matching row wins (the loop breaks). -/
def scrFindBook (preferredFormat query : String) (rows : List GenRow) : Option (String × String) :=
  (rows.filter fun r => 9 ≤ r.cells.length).findSome? (scrRowMatch preferredFormat query)

/-- The regex `/libgen\.(lc|gs|rs|st|rocks|click)|download\.library\.lol|b-ok\.org/i`
modeled as case-insensitive containment of its alternatives with literal dots
(the unescaped dots of the original also match arbitrary characters; that
liberality is never load-bearing below). -/
def scrMirrorHostTest (href : String) : Bool :=
  let h := jsToLower href
  jsIncludes h "libgen.lc" || jsIncludes h "libgen.gs" || jsIncludes h "libgen.rs" ||
  jsIncludes h "libgen.st" || jsIncludes h "libgen.rocks" || jsIncludes h "libgen.click" ||
  jsIncludes h "download.library.lol" || jsIncludes h "b-ok.org"

/-- The regex `/\.(pdf|epub)$/i` on a link target. -/
def scrBinaryExtTest (href : String) : Bool :=
  jsEndsWith (jsToLower href) ".pdf" || jsEndsWith (jsToLower href) ".epub"

/-- Download-link pass 1 (lines 357-361): the first element matched by
`#download h2 a, a[href*="get.php"]`; a falsy href on that element leaves the
link unset. -/
def scrPass1 (anchors : List Anchor) : Option String :=
  match (anchors.filter fun a =>
      a.underDownloadH2 ||
      (match a.href with | some h => jsIncludes h "get.php" | none => false)).head? with
  | some a =>
    match a.href with
    | some h => if h ≠ "" then some h else none
    | none => none
  | none => none

/-- Download-link pass 2 (lines 364-379): first anchor with a truthy href
whose trimmed upper-cased text is `GET` or whose target matches the
mirror-host pattern, provided the target ends in a binary extension, the text
is `GET`, or the target contains `get.php`. -/
def scrPass2 (anchors : List Anchor) : Option String :=
  anchors.findSome? fun a =>
    match a.href with
    | some href =>
      let text := jsToUpper (jsTrim a.text)
      if href ≠ "" ∧ (text = "GET" ∨ scrMirrorHostTest href = true) ∧
         (scrBinaryExtTest href = true ∨ text = "GET" ∨ jsIncludes href "get.php" = true) then
        some href
      else none
    | none => none

/-- Download-link pass 3 (lines 383-392): first anchor whose target contains
the preferred format and either the first five characters of the sanitized
lower-cased title or any space-separated word of the title. -/
def scrPass3 (preferredFormat bookTitle : String) (anchors : List Anchor) : Option String :=
  anchors.findSome? fun a =>
    match a.href with
    | some href =>
      if href ≠ "" ∧ jsIncludes (jsToLower href) preferredFormat = true ∧
         (jsIncludes (jsToLower href) (strTake (jsToLower (sanitizeFilename bookTitle)) 5) = true ∨
          (jsSplit bookTitle ' ').any (fun w => jsIncludes (jsToLower href) (jsToLower w)) = true) then
        some href
      else none
    | none => none

/-- The chained download-link search of the scraper Step 2. -/
def scrFindDownloadLink (preferredFormat bookTitle : String) (anchors : List Anchor) : Option String :=
  match scrPass1 anchors with
  | some l => some l
  | none =>
    match scrPass2 anchors with
    | some l => some l
    | none => scrPass3 preferredFormat bookTitle anchors

/-- URL absolutization of lines 400-404. -/
def scrAbsolutize (bookPageUrl link : String) : String :=
  if jsStartsWith link "http" then link
  else urlOrigin bookPageUrl ++ (if jsStartsWith link "/" then "" else "/") ++ link

/-- The scraper search URL (line 284). -/
def scrSearchUrl (query : String) : String :=
  "http://libgen.is/search.php?req=" ++ encodeURIComponent query ++
    "&lg_topic=libgen&open=0&view=simple&res=25&phrase=1&column=def"

/-- The scraper handler (src/index.js second script, lines 277-460): final
result at the MCP boundary plus the ordered trace of network and file-system
operations.  The destination file is opened (`fs.createWriteStream`) before
the download request is issued; on a writer error the partial file is
unlinked and the returned promise rejects; on a response-stream error the
writer is ended, the partial file is unlinked, and the promise rejects; on
`finish` it resolves with the success text.  Errors thrown before the
streaming phase are caught and resolved as structured messages. -/
def scrHandler (env : ScrEnv) (a : ScrArgs) : ScrResult × List ScrEvent :=
  let preferredFormat := jsToLower a.format
  let searchUrl := scrSearchUrl a.query
  match env.searchResp with
  | .error e => (.resolved (scrCatch (.axios e)), [.getSearch searchUrl])
  | .ok rows =>
    match scrFindBook preferredFormat a.query rows with
    | none => (.resolved (.notFoundOnPage a.query preferredFormat), [.getSearch searchUrl])
    | some (bookPageUrl, bookTitle) =>
      match env.bookPageResp with
      | .error e =>
        (.resolved (scrCatch (.axios e)), [.getSearch searchUrl, .getBookPage bookPageUrl])
      | .ok anchors =>
        match scrFindDownloadLink preferredFormat bookTitle anchors with
        | none =>
          (.resolved (.noDirectLink bookTitle), [.getSearch searchUrl, .getBookPage bookPageUrl])
        | some rawLink =>
          let downloadLink := scrAbsolutize bookPageUrl rawLink
          let downloadsPath := env.home ++ "/Downloads"
          match env.ensureDirErr with
          | some m =>
            (.resolved (scrCatch (.plain m)),
             [.getSearch searchUrl, .getBookPage bookPageUrl, .ensureDir downloadsPath])
          | none =>
            let safeBookTitle := sanitizeFilename bookTitle
            let fileName :=
              (if safeBookTitle ≠ "" then safeBookTitle else "downloaded_book") ++
                "." ++ preferredFormat
            let filePath := downloadsPath ++ "/" ++ fileName
            let ev0 := [ScrEvent.getSearch searchUrl, .getBookPage bookPageUrl,
                        .ensureDir downloadsPath, .openWrite filePath, .getDownload downloadLink]
            match env.downloadReqResp with
            | .error e => (.resolved (scrCatch (.axios e)), ev0)
            | .ok _ =>
              match env.streamOutcome with
              | .finished => (.resolved (.downloadSuccess bookTitle fileName), ev0)
              | .writeError m =>
                (.rejected ("Failed to write file: " ++ m), ev0 ++ [.unlink filePath])
              | .streamError m =>
                (.rejected ("Failed to download book (stream error): " ++ m),
                 ev0 ++ [.closeWrite filePath, .unlink filePath])

/-- Whether a file remains at path `p` after replaying the file-system effects
of a trace in order: `openWrite` creates it, `unlink` removes it. -/
def fileRemains (events : List ScrEvent) (p : String) : Bool :=
  events.foldl (fun st e =>
    match e with
    | .openWrite q => if q = p then true else st
    | .unlink q => if q = p then false else st
    | _ => st) false

/-! ### The full v1.0.12 handler (src/unnamed/part_001, first script) -/

/-- Tool arguments of the v1.0.12 script after zod defaulting. -/
structure V1012Args where
  query : String
  format : String := "pdf"
  debug : Bool := false
  openFile : Bool := true
  timeout : Nat := 60000
  bookIndex : Option ℚ := none
deriving Repr, DecidableEq

/-- The network requests of a v1.0.12 invocation, in program order. -/
inductive V1012Req where
  | search (url : String)
  | bookPage (url : String)
  | mirror (url : String)
  | download (url : String)
deriving Repr, DecidableEq

/-- Upstream behavior for one v1.0.12 invocation, in program order. -/
structure V1012Env where
  searchResp : Except AxiosErrInfo (List GenRow) := .ok []
  bookPageResp : Except AxiosErrInfo (List Anchor) := .ok []
  mirrorPageResp : Except AxiosErrInfo (List Anchor) := .ok []
  downloadResp : Except AxiosErrInfo AAFileResp := .ok ⟨none⟩
  writeErr : Option String := none
  execThrows : Bool := false
  home : String := "/home/user"
deriving Repr

/-- The distinct text results of the v1.0.12 handler, one constructor per
return site. -/
inductive V1012Outcome where
  /-- Line 40: `Unsupported format: f. ...` -/
  | unsupportedFormat (format : String)
  /-- Lines 52-58: `No books found for query "q". ...` -/
  | noResults (query : String) (debug : Bool)
  /-- Lines 97-105: `No books found in f format for query "q". ...` -/
  | noBooksInFormat (format query : String) (debug : Bool)
  /-- Lines 108-120: the enumerated candidate list with selection prompt. -/
  | bookList (query format : String) (books : List V1012Book)
  /-- Lines 123-125: `Invalid bookIndex: i. ...` -/
  | invalidIndex (given : ℚ) (maxIdx : Int)
  /-- Lines 130-133: no details link on the selected book. -/
  | noDetailsLink (title : String)
  /-- Lines 180-200: no mirror links found on the book page. -/
  | mirrorNotFound (title md5 : String) (debug : Bool)
  /-- Lines 244-261: no GET buttons on the download page. -/
  | getNotFound (title : String) (debug : Bool)
  /-- Lines 331-332: `Opening "title" by author...` -/
  | opened (title author : String)
  /-- Line 333: `Downloaded "title" by author to: path` -/
  | downloaded (title author path : String)
  /-- Lines 346-353: `Failed to connect to LibGen. ...` -/
  | connectFailed (msg : String)
  /-- Lines 355-362: the static timed-out advice text. -/
  | timedOut
  /-- Lines 364-371: the static file-too-large text. -/
  | tooLarge
  /-- Lines 373-380: `The requested page or file was not found. (HTTP 404)` -/
  | notFound404
  /-- Lines 383-387: `An error occurred: msg` -/
  | genericError (msg : String)
deriving Repr, DecidableEq

/-- The v1.0.12 catch block (part_001 lines 338-388). -/
def v1012Catch (e : JsErr) : V1012Outcome :=
  match e with
  | .axios a =>
    if a.code = some "ENOTFOUND" ∨ a.code = some "ECONNREFUSED" then
      .connectFailed a.message
    else if a.code = some "ETIMEDOUT" ∨ jsIncludes a.message "timeout" then
      .timedOut
    else if jsIncludes a.message "maxContentLength" ∨ jsIncludes a.message "maxBodyLength" then
      .tooLarge
    else
      match a.status with
      | some 404 => .notFound404
      | _ => .genericError a.message
  | .plain m => .genericError m

/-- The file-extension choice of part_001 lines 284-295: content type first,
then the URL, then the requested format.  The cheerio header access on a
missing content type is falsy, so containment on the empty string matches the
JS guard. -/
def v1012FileExt (format : String) (contentType : Option String) (url : String) : String :=
  if jsIncludes (contentType.getD "") "application/pdf" then "pdf"
  else if jsIncludes (contentType.getD "") "application/epub" then "epub"
  else if jsIncludes url ".pdf" then "pdf"
  else if jsIncludes url ".epub" then "epub"
  else format

/-- JS `s.replace(/[^a-zA-Z0-9]/g, "_")` as lines 298-299 apply it. -/
def stripNonAlnum (s : String) : String :=
  String.mk (s.data.map fun c => if c.isAlphanum then c else '_')

/-- The v1.0.12 handler (part_001 first script, lines 33-389): outcome plus
the ordered trace of network requests.  Phase 1 (no `bookIndex`) returns the
candidate list after the single search request; Phase 2 validates the index,
requires a details link, resolves book page, mirror page and GET button, then
downloads and writes the file. -/
def v1012handler (env : V1012Env) (a : V1012Args) : V1012Outcome × List V1012Req :=
  let format := jsToLower a.format
  if ¬ (format = "pdf" ∨ format = "epub") then (.unsupportedFormat format, [])
  else
    let sUrl := libgenSearchUrl a.query
    match env.searchResp with
    | .error e => (v1012Catch (.axios e), [.search sUrl])
    | .ok rows =>
      if rows.isEmpty then (.noResults a.query a.debug, [.search sUrl])
      else
        let books := v1012extract format rows
        if books.isEmpty then (.noBooksInFormat format a.query a.debug, [.search sUrl])
        else
          match a.bookIndex with
          | none => (.bookList a.query format books, [.search sUrl])
          | some idx =>
            if idx < 0 ∨ (books.length : ℚ) ≤ idx then
              (.invalidIndex idx ((books.length : Int) - 1), [.search sUrl])
            else
              match jsArrayGet books idx with
              | none =>
                -- `books[bookIndex]` is undefined; line 128 reads
                -- `selectedBook.title`, raising a TypeError.
                (v1012Catch (.plain "Cannot read properties of undefined (reading title)"),
                 [.search sUrl])
              | some selectedBook =>
                if selectedBook.detailsLink.getD "" = "" then
                  (.noDetailsLink selectedBook.title, [.search sUrl])
                else
                  let bUrl := libgenBookPageUrl selectedBook.md5
                  match env.bookPageResp with
                  | .error e => (v1012Catch (.axios e), [.search sUrl, .bookPage bUrl])
                  | .ok pageAnchors =>
                    let allLinks := presentLinks pageAnchors
                    match mirrorLinksFor selectedBook.title selectedBook.md5 allLinks with
                    | [] =>
                      (.mirrorNotFound selectedBook.title selectedBook.md5 a.debug,
                       [.search sUrl, .bookPage bUrl])
                    | mirrorLink :: _ =>
                      match env.mirrorPageResp with
                      | .error e =>
                        (v1012Catch (.axios e),
                         [.search sUrl, .bookPage bUrl, .mirror mirrorLink.href])
                      | .ok dlAnchors =>
                        match getButtons dlAnchors with
                        | [] =>
                          (.getNotFound selectedBook.title a.debug,
                           [.search sUrl, .bookPage bUrl, .mirror mirrorLink.href])
                        | downloadButton :: _ =>
                          let absoluteDownloadUrl :=
                            if jsStartsWith downloadButton.href "http" then downloadButton.href
                            else jsNewUrlHref downloadButton.href mirrorLink.href
                          let trace := [V1012Req.search sUrl, .bookPage bUrl,
                                        .mirror mirrorLink.href, .download absoluteDownloadUrl]
                          match env.downloadResp with
                          | .error e => (v1012Catch (.axios e), trace)
                          | .ok fileResponse =>
                            let fileExt :=
                              v1012FileExt format fileResponse.contentType absoluteDownloadUrl
                            let safeTitle := strTake (stripNonAlnum selectedBook.title) 50
                            let safeAuthor :=
                              if selectedBook.author ≠ "" then
                                strTake (stripNonAlnum selectedBook.author) 50
                              else "Unknown"
                            let filePath := env.home ++ "/Downloads/" ++ safeTitle ++ "_by_" ++
                              safeAuthor ++ "." ++ fileExt
                            match env.writeErr with
                            | some m => (v1012Catch (.plain m), trace)
                            | none =>
                              let dispTitle := jsTrim ((jsSplit selectedBook.title '[').headD "")
                              let dispAuthor := jsTrim ((jsSplit selectedBook.author ',').headD "")
                              if a.openFile && !env.execThrows then
                                (.opened dispTitle dispAuthor, trace)
                              else (.downloaded dispTitle dispAuthor filePath, trace)

/-! ### The full v1.0.14 handler (src/unnamed/part_002) -/

/-- The searchDomain enum of part_002 (zod enum, default general). -/
inductive SearchDomain where
  | general
  | fiction
deriving Repr, DecidableEq

/-- Tool arguments of the v1.0.14 script after zod defaulting. -/
structure V1014Args where
  query : String
  searchDomain : SearchDomain := .general
  format : String := "any"
  debug : Bool := false
  openFile : Bool := true
  bookIndex : Option ℚ := none
deriving Repr, DecidableEq

/-- A v1.0.14 book: the fiction extraction record or the general extraction
record (whose fields coincide with the v1.0.12 record), tagged the way the
code tags each pushed object with its searchDomain. -/
inductive V1014Book where
  | fic (b : FicBook)
  | gen (b : V1012Book)
deriving Repr, DecidableEq

/-- One row of the v1.0.14 general extraction (part_002 lines 119-143): like
the v1.0.12 extraction but the push guard also requires a truthy md5. -/
def gen14extractRow (lowerCaseFormat : String) (row : GenRow) : Option V1012Book :=
  if 10 ≤ row.cells.length then
    let titleAnchors := (cellAt row 2).anchors
    let title := jsTrim (anchorsText titleAnchors)
    let parsedExtension := jsToLower (jsTrim (cellAt row 8).text)
    let md5 := ((firstHref titleAnchors).bind md5Capture).getD ""
    if title ≠ "" ∧ md5 ≠ "" ∧
       (lowerCaseFormat = "any" ∨ jsIncludes parsedExtension lowerCaseFormat) then
      some
        { id := jsTrim (cellAt row 0).text
          author := jsTrim (cellAt row 1).text
          title := title
          publisher := jsTrim (cellAt row 3).text
          year := jsTrim (cellAt row 4).text
          pages := jsTrim (cellAt row 5).text
          language := jsTrim (cellAt row 6).text
          size := jsTrim (cellAt row 7).text
          extension := parsedExtension
          detailsLink := firstHref (cellAt row 9).anchors
          md5 := md5 }
    else none
  else none

/-- The v1.0.14 general extraction over all result rows. -/
def gen14extract (lowerCaseFormat : String) (rows : List GenRow) : List V1012Book :=
  rows.filterMap (gen14extractRow lowerCaseFormat)

/-- The search URL of a v1.0.14 invocation (part_002 lines 41 and 105). -/
def v1014SearchUrl (a : V1014Args) : String :=
  match a.searchDomain with
  | .fiction => "https://libgen.is/fiction/?q=" ++ encodeURIComponent a.query
  | .general => libgenSearchUrl a.query

/-- The extracted candidate list of a v1.0.14 invocation: the domain picks the
extraction loop, and every pushed record carries its domain tag. -/
def v1014books (a : V1014Args) (rows : List GenRow) : List V1014Book :=
  match a.searchDomain with
  | .fiction => (ficExtract (jsToLower a.format) rows).map .fic
  | .general => (gen14extract (jsToLower a.format) rows).map .gen

/-- The network requests of a v1.0.14 invocation, in program order. -/
inductive V1014Req where
  | search (url : String)
  | bookPage (url : String)
  | downloadPage (url : String)
  | download (url : String)
deriving Repr, DecidableEq

/-- Upstream behavior for one v1.0.14 invocation, in program order.  In the
fiction branch `downloadPageResp` answers the download-source-page fetch; in
the general branch `bookPageResp` answers the book-page fetch and
`downloadPageResp` the mirror-page fetch. -/
structure V1014Env where
  searchResp : Except AxiosErrInfo (List GenRow) := .ok []
  bookPageResp : Except AxiosErrInfo (List Anchor) := .ok []
  downloadPageResp : Except AxiosErrInfo (List Anchor) := .ok []
  downloadResp : Except AxiosErrInfo AAFileResp := .ok ⟨none⟩
  writeErr : Option String := none
  execThrows : Bool := false
  home : String := "/home/user"
deriving Repr

/-- The distinct text results of the v1.0.14 handler, one constructor per
return site. -/
inductive V1014Outcome where
  /-- Line 51: `No fiction books found for query "q". ...` -/
  | noFictionBooks (query : String)
  /-- Line 115: `No general books found for query "q". ...` -/
  | noGeneralBooks (query : String)
  /-- Line 148: `No books found in f format for query "q" in d domain. ...` -/
  | noBooksInFormat (format query : String) (domain : SearchDomain)
  /-- Lines 163-168: the enumerated candidate list with selection prompt. -/
  | bookList (query format : String) (domain : SearchDomain) (books : List V1014Book)
  /-- Line 172: `Invalid bookIndex: i. ...` -/
  | invalidIndex (given : ℚ) (maxIdx : Int)
  /-- Line 183: no download page link on the selected fiction book. -/
  | noFictionDownloadPage (title : String)
  /-- Line 206: no final GET link on the fiction download page. -/
  | ficGetNotFound (title : String)
  /-- Line 213: no details link on the selected general book. -/
  | noDetailsLink (title : String)
  /-- Line 255: no download mirror link on the general book page. -/
  | mirrorNotFound (title : String)
  /-- Line 281: no GET button on the general download page. -/
  | genGetNotFound (title : String)
  /-- Line 288: could not resolve a final download link. -/
  | couldNotResolve (title : String)
  /-- Line 345: `Opening "title" by author... (Saved to path)` -/
  | opened (title author path : String)
  /-- Line 333: `Downloaded "title" by author to: path` -/
  | downloaded (title author path : String)
  /-- Line 365: `Failed to connect to LibGen or a download mirror. ...` -/
  | connectFailed (msg : String)
  /-- Line 367: `The requested page or file was not found (HTTP 404). URL: url` -/
  | notFound404 (url : String)
  /-- Line 369: `HTTP error s while accessing url. (msg)` -/
  | httpError (status : Nat) (url msg : String)
  /-- Line 362 default: `An error occurred: msg` -/
  | genericError (msg : String)
deriving Repr, DecidableEq

/-- The v1.0.14 catch block (part_002 lines 355-376). -/
def v1014Catch (e : JsErr) : V1014Outcome :=
  match e with
  | .axios a =>
    if a.code = some "ENOTFOUND" ∨ a.code = some "ECONNREFUSED" ∨
       a.code = some "ETIMEDOUT" ∨ jsIncludes (jsToLower a.message) "timeout" then
      .connectFailed a.message
    else
      match a.status with
      | some 404 => .notFound404 a.url
      | some s => .httpError s a.url a.message
      | none => .genericError a.message
  | .plain m => .genericError m

/-- The file-extension choice of part_002 lines 313-320: content type first,
else the extension of the selected book. -/
def v1014FileExt (ext : String) (contentType : Option String) : String :=
  match contentType with
  | none => ext
  | some ct =>
    if jsIncludes ct "application/pdf" then "pdf"
    else if jsIncludes ct "application/epub+zip" then "epub"
    else if jsIncludes ct "application/zip" then "zip"
    else if jsIncludes ct "application/x-mobipocket-ebook" then "mobi"
    else ext

/-- The regex `/libgen|library|books\.ms|mirror/i` on a link text, with the
unescaped-dot liberality of the original not modeled (never load-bearing). -/
def v1014TextMirrorTest (text : String) : Bool :=
  let t := jsToLower text
  jsIncludes t "libgen" || jsIncludes t "library" || jsIncludes t "books.ms" ||
  jsIncludes t "mirror"

/-- The general-domain mirror-link search of part_002 lines 222-245: a first
pass on known mirror hosts carrying the md5 with a title-prefix, mirror-word
or short text, then a second pass on any md5-carrying href with the GET label
or short text. -/
def v1014MirrorPass (bk : V1012Book) (anchors : List Anchor) : Option String :=
  match anchors.findSome? (fun el =>
    match el.href with
    | some href =>
      if href ≠ "" ∧ (jsIncludes href "books.ms/main/" ∨ jsIncludes href "library.lol/main/") ∧
         jsIncludes (jsToLower href) (jsToLower bk.md5) = true then
        let text := jsTrim el.text
        if jsIncludes (jsToLower text) (jsToLower (strTake bk.title 10)) = true ∨
           v1014TextMirrorTest text = true ∨ text.length < 30 then some href else none
      else none
    | none => none) with
  | some h => some h
  | none =>
    anchors.findSome? fun el =>
      match el.href with
      | some href =>
        if href ≠ "" ∧ jsIncludes (jsToLower href) (jsToLower bk.md5) = true then
          let text := jsTrim el.text
          if jsToUpper text = "GET" ∨ text.length < 30 then some href else none
        else none
      | none => none

/-- The fiction-domain GET lookup of part_002 lines 190-191: the href of the
first anchor whose trimmed upper-cased text is GET (the filter does not
require an href, so the result may be absent). -/
def ficGetHref (anchors : List Anchor) : Option String :=
  ((anchors.filter fun a => jsToUpper (jsTrim a.text) == "GET").head?).bind (·.href)

/-- The shared download-and-save phase of part_002 lines 287-353, reached with
the selected book fields, the final download link and the page it came from. -/
def v1014DownloadPhase (env : V1014Env) (a : V1014Args)
    (title author ext finalDownloadLink downloadSourcePageUrl : String)
    (tracePrev : List V1014Req) : V1014Outcome × List V1014Req :=
  if finalDownloadLink = "" then (.couldNotResolve title, tracePrev)
  else
    let absoluteDownloadUrl :=
      if jsStartsWith finalDownloadLink "http" then finalDownloadLink
      else jsNewUrlHref finalDownloadLink downloadSourcePageUrl
    let trace := tracePrev ++ [.download absoluteDownloadUrl]
    match env.downloadResp with
    | .error e => (v1014Catch (.axios e), trace)
    | .ok fileResponse =>
      let fileExt := v1014FileExt ext fileResponse.contentType
      let safeTitle := strTake (safeChars title) 50
      let safeAuthor := if author ≠ "" then strTake (safeChars author) 30 else "UnknownAuthor"
      let filePath := env.home ++ "/Downloads/" ++ safeTitle ++ "_by_" ++ safeAuthor ++
        "." ++ fileExt
      match env.writeErr with
      | some m => (v1014Catch (.plain m), trace)
      | none =>
        let dispTitle := jsTrim ((jsSplit title '[').headD "")
        let dispAuthor := jsTrim ((jsSplit author ',').headD "")
        if a.openFile && !env.execThrows then (.opened dispTitle dispAuthor filePath, trace)
        else (.downloaded dispTitle dispAuthor filePath, trace)

/-- The v1.0.14 handler (part_002 lines 30-377): outcome plus the ordered
trace of network requests.  The fiction and general domains share the
emptiness check, candidate listing, index validation and download phase; they
differ in the search URL, the extraction loop and the link-resolution
chain. -/
def v1014handler (env : V1014Env) (a : V1014Args) : V1014Outcome × List V1014Req :=
  let lowerCaseFormat := jsToLower a.format
  let sUrl := v1014SearchUrl a
  match env.searchResp with
  | .error e => (v1014Catch (.axios e), [.search sUrl])
  | .ok rows =>
    if rows.isEmpty then
      (match a.searchDomain with
       | .fiction => (.noFictionBooks a.query, [.search sUrl])
       | .general => (.noGeneralBooks a.query, [.search sUrl]))
    else
      let books := v1014books a rows
      if books.isEmpty then
        (.noBooksInFormat lowerCaseFormat a.query a.searchDomain, [.search sUrl])
      else
        match a.bookIndex with
        | none => (.bookList a.query lowerCaseFormat a.searchDomain books, [.search sUrl])
        | some idx =>
          if idx < 0 ∨ (books.length : ℚ) ≤ idx then
            (.invalidIndex idx ((books.length : Int) - 1), [.search sUrl])
          else
            match jsArrayGet books idx with
            | none =>
              -- `books[bookIndex]` is undefined; line 176 reads
              -- `selectedBook.searchDomain`, raising a TypeError.
              (v1014Catch (.plain "Cannot read properties of undefined (reading searchDomain)"),
               [.search sUrl])
            | some selectedBook =>
              match selectedBook with
              | .fic fb =>
                if fb.downloadPageLink = "" then
                  (.noFictionDownloadPage fb.title, [.search sUrl])
                else
                  match env.downloadPageResp with
                  | .error e =>
                    (v1014Catch (.axios e), [.search sUrl, .downloadPage fb.downloadPageLink])
                  | .ok anchors =>
                    let fdl := (ficGetHref anchors).getD ""
                    if fdl = "" then
                      (.ficGetNotFound fb.title, [.search sUrl, .downloadPage fb.downloadPageLink])
                    else
                      v1014DownloadPhase env a fb.title fb.author fb.extension fdl
                        fb.downloadPageLink [.search sUrl, .downloadPage fb.downloadPageLink]
              | .gen gb =>
                if gb.detailsLink.getD "" = "" then (.noDetailsLink gb.title, [.search sUrl])
                else
                  let bookPageUrl :=
                    if jsStartsWith (gb.detailsLink.getD "") "http" then gb.detailsLink.getD ""
                    else "https://libgen.is" ++ gb.detailsLink.getD ""
                  match env.bookPageResp with
                  | .error e => (v1014Catch (.axios e), [.search sUrl, .bookPage bookPageUrl])
                  | .ok pageAnchors =>
                    match v1014MirrorPass gb pageAnchors with
                    | none => (.mirrorNotFound gb.title, [.search sUrl, .bookPage bookPageUrl])
                    | some mirrorHref =>
                      match env.downloadPageResp with
                      | .error e =>
                        (v1014Catch (.axios e),
                         [.search sUrl, .bookPage bookPageUrl, .downloadPage mirrorHref])
                      | .ok dlAnchors =>
                        match getButtons dlAnchors with
                        | [] =>
                          (.genGetNotFound gb.title,
                           [.search sUrl, .bookPage bookPageUrl, .downloadPage mirrorHref])
                        | btn :: _ =>
                          v1014DownloadPhase env a gb.title gb.author gb.extension btn.href
                            mirrorHref
                            [.search sUrl, .bookPage bookPageUrl, .downloadPage mirrorHref]

/-! ### Concrete inputs used by the theorems below -/

/-- A search hit with an md5. -/
def hitA : Hit := { md5 := "ABC", title := "Sample Title", author := "Sample Author" }

/-- The book `aaProcessHits` builds from `hitA`. -/
def bookA : AABook :=
  { title := "Sample Title", author := "Sample Author", publisher := "", year := "",
    language := "Unknown", extension := "", filesize := "Unknown Size", md5 := "ABC",
    coverUrl := "", source := "" }

/-- A hit whose md5 is missing (falsy), skipped by extraction. -/
def hitNoMd5 : Hit := { md5 := "", title := "No Id", author := "A" }

/-- Annas-Archive upstream answering the search with the single hit `hitA`. -/
def aaEnvOk : AAEnv :=
  { searchResp := .ok (some [hitA]), infoResp := .ok (), downloadResp := .ok ⟨none⟩ }

/-- Annas-Archive upstream whose only hit has no md5: extraction is empty. -/
def aaEnvNoMd5 : AAEnv :=
  { searchResp := .ok (some [hitNoMd5]), infoResp := .ok (), downloadResp := .ok ⟨none⟩ }

/-- Eleven distinct hits. -/
def hits11 : List Hit :=
  ["a", "b", "c", "d", "e", "f", "g", "h", "i", "j", "k"].map fun s =>
    { md5 := s, title := "T" ++ s, author := "A" }

/-- Annas-Archive upstream answering with eleven hits although the request
carried `limit=10`. -/
def aaEnv11 : AAEnv :=
  { searchResp := .ok (some hits11), infoResp := .ok (), downloadResp := .ok ⟨none⟩ }

/-- The JS number 0.5 as a rational. -/
def q05 : ℚ := ⟨1, 2, by norm_num, by norm_num⟩

/-- A libgen.is results row whose title anchor carries an md5 link. -/
def row0 : GenRow :=
  ⟨[tcell "101", tcell "Jane Doe",
    ⟨"", [{ href := some "book/index.php?md5=ABCDEF", text := "My Title" }]⟩,
    tcell "Pub", tcell "2001", tcell "100", tcell "English", tcell "1 MB",
    tcell "pdf", tcell ""]⟩

/-- A v1.0.6 upstream on which the pipeline reaches the file download: one
extractable row, a books.ms mirror link on the book page, a GET button on the
mirror page, and a successful download. -/
def env6 : V106Env :=
  { searchResp := .ok [row0]
    bookPageResp := .ok [{ href := some "http://books.ms/main/ABCDEF", text := "My Title" }]
    mirrorPageResp := .ok [{ href := some "http://download.books.ms/main/x.pdf", text := "GET" }]
    downloadResp := .ok { contentType := some "application/pdf" } }

/-- A results row with 10 columns whose title anchor href carries no md5
pattern and whose 10th column holds no anchor: v1.0.12 extraction surfaces it
with an empty md5 and no details link. -/
def rowNoId : GenRow :=
  ⟨[tcell "7", tcell "A. Author",
    ⟨"", [{ href := some "nope", text := "Ghost Book" }]⟩,
    tcell "P", tcell "1999", tcell "10", tcell "en", tcell "2 MB",
    tcell "pdf", tcell ""]⟩

/-- The candidate the v1.0.12 extraction builds from `rowNoId`. -/
def ghostBook : V1012Book :=
  { id := "7", author := "A. Author", title := "Ghost Book", publisher := "P",
    year := "1999", pages := "10", language := "en", size := "2 MB",
    extension := "pdf", detailsLink := none, md5 := "" }

/-- A mirror page holding no GET-labeled anchor but one anchor whose target
ends in a binary extension. -/
def pdfPage : List Anchor :=
  [{ href := some "http://mirror.example/book.pdf", text := "Download here" }]

/-- A scraper results row (9 columns, pdf extension, `a[id]` title anchor). -/
def scrRow : GenRow :=
  ⟨[tcell "1", tcell "Auth",
    ⟨"", [{ href := some "http://libgen.is/book/index.php?md5=AB12", text := "Stream Book",
            hasId := true }]⟩,
    tcell "P", tcell "2000", tcell "5", tcell "en", tcell "3 MB", tcell "pdf"]⟩

/-- A scraper upstream whose response stream errors mid-download. -/
def env7 : ScrEnv :=
  { searchResp := .ok [scrRow]
    bookPageResp := .ok [{ href := some "http://library.lol/main/AB12", text := "GET" }]
    streamOutcome := .streamError "boom" }

/-- The same upstream with the stream finishing normally. -/
def env7fin : ScrEnv :=
  { searchResp := .ok [scrRow]
    bookPageResp := .ok [{ href := some "http://library.lol/main/AB12", text := "GET" }]
    streamOutcome := .finished }

/-- A fiction results row as part_002 reads it. -/
def ficRow : GenRow :=
  ⟨[⟨"", [{ href := some "/fiction/?q=x", text := "F. Author" }]⟩,
    tcell "A Series",
    ⟨"", [{ href := some "/fiction/AB12CD", text := "Fiction Title" }]⟩,
    tcell "English",
    tcell "epub / 1.2 MB",
    ⟨"", [{ href := some "http://books.ms/fiction/AB12CD", text := "books.ms" }]⟩]⟩

/-- A v1.0.12 upstream answering the search with the single row `row0`. -/
def env12 : V1012Env := { searchResp := .ok [row0] }

/-- A v1.0.14 upstream answering the general-domain search with `row0`. -/
def env14 : V1014Env := { searchResp := .ok [row0] }

/-! ## Helper lemmas -/

/-- The rational `q05` is one half. -/
theorem q05_eq_half : q05 = 1 / 2 := by
  unfold q05; rw [Rat.mk_eq_divInt, Rat.divInt_eq_div]; norm_num

/-- Extraction of an empty hit list is empty. -/
theorem aaProcessHits_nil : aaProcessHits [] = [] := rfl

/-- A non-empty extraction forces a non-empty hit list. -/
theorem hits_ne_nil_of_extract (hits : List Hit) (h : aaProcessHits hits ≠ []) :
    hits.isEmpty = false := by
  cases hits with
  | nil => exact absurd aaProcessHits_nil h
  | cons x t => rfl

/-- The first element of a filterMap is the first mapped element. -/
theorem head?_filterMap {α β : Type} (f : α → Option β) (l : List α) :
    (l.filterMap f).head? = l.findSome? f := by
  induction l with
  | nil => rfl
  | cons a t ih =>
    rw [List.filterMap_cons, List.findSome?_cons]
    cases f a with
    | none => exact ih
    | some b => rfl

/-! ## C1: out-of-range selection index -/

/-- C1, counterexample: with one extracted candidate and `bookIndex = 5`
(outside `[0, 1)`), the invocation does return the out-of-range message, but
its network trace is the non-empty Phase-1 search request, so "no network call
is made during that invocation" is false as stated. -/
theorem c1_search_call_made_on_out_of_range :
    aaHandler aaEnvOk { query := "q", bookIndex := some 5 } =
      (.invalidIndex 5 0, [aaSearchReq { query := "q", bookIndex := some 5 }]) ∧
    [aaSearchReq { query := "q", bookIndex := some 5 }] ≠ ([] : List AAReq) :=
  ⟨by decide, by decide⟩

/-- C1 (amended): for every upstream and every out-of-range `bookIndex`
against a non-empty candidate list, the handler returns the invalid-index
outcome and its trace is exactly the single Phase-1 search request — the
search call does occur, and no info or download call follows the failed
validation. -/
theorem c1_out_of_range_no_further_calls
    (env : AAEnv) (a : AAArgs) (hits : List Hit) (idx : ℚ)
    (hs : env.searchResp = .ok (some hits))
    (hi : a.bookIndex = some idx)
    (hne : aaProcessHits hits ≠ [])
    (hout : idx < 0 ∨ ((aaProcessHits hits).length : ℚ) ≤ idx) :
    aaHandler env a =
      (.invalidIndex idx ((aaProcessHits hits).length - 1), [aaSearchReq a]) := by
  have h1 := hits_ne_nil_of_extract hits hne
  have h2 : (aaProcessHits hits).isEmpty = false := by
    cases h : aaProcessHits hits with
    | nil => exact absurd h hne
    | cons x t => rfl
  simp only [aaHandler, hs, hi, Option.getD_some, h1, h2, Bool.false_eq_true,
    if_false]
  rw [if_pos hout]

/-- C1 witness: the amended theorem applied at a concrete out-of-range run. -/
theorem c1_out_of_range_no_further_calls_witness :
    (aaEnvOk.searchResp = .ok (some [hitA]) ∧ aaProcessHits [hitA] ≠ [] ∧
      ((7 : ℚ) < 0 ∨ ((aaProcessHits [hitA]).length : ℚ) ≤ 7)) ∧
    aaHandler aaEnvOk { query := "w1", bookIndex := some 7 } =
      (.invalidIndex 7 ((aaProcessHits [hitA]).length - 1),
       [aaSearchReq { query := "w1", bookIndex := some 7 }]) :=
  ⟨⟨rfl, by decide, Or.inr (by decide)⟩,
   c1_out_of_range_no_further_calls aaEnvOk _ [hitA] 7 rfl rfl (by decide)
     (Or.inr (by decide))⟩

/-! ## C2: behavior when no selection index is supplied -/

/-- C2, counterexample: a v1.0.6 invocation carries no selection index (the
script has no such parameter), yet with the default `debug = false` it does
not return the candidate list: it auto-selects the first extracted book,
issues the asset download request, and ends in the generic internal error of
the undefined `bookTitle` identifier. -/
theorem c2_v106_autoselects_and_downloads :
    (v106handler env6 { query := "my title" }).1 =
      .genericError "bookTitle is not defined" ∧
    V106Req.download "http://download.books.ms/main/x.pdf" ∈
      (v106handler env6 { query := "my title" }).2 :=
  ⟨by decide, by decide⟩

/-- C2 (amended): in the `bookIndex`-accepting variants — the Annas-Archive
API variant, v1.0.12 and v1.0.14 — an invocation without a selection index
returns the full formatted candidate list and performs no download (its trace
is only the search request); the v1.0.6 variant returns its candidate list
only when `debug` is true — with the default `debug = false` it silently
auto-selects the first candidate, which is not an explicit auto-select
opt-in. -/
theorem c2_no_index_returns_list :
    (∀ (env : AAEnv) (a : AAArgs) (hits : List Hit),
      env.searchResp = .ok (some hits) → a.bookIndex = none →
      aaProcessHits hits ≠ [] →
      aaHandler env a = (.bookList a.query (aaProcessHits hits), [aaSearchReq a])) ∧
    (∀ (env : V1012Env) (a : V1012Args) (rows : List GenRow),
      env.searchResp = .ok rows → rows ≠ [] → a.bookIndex = none →
      (jsToLower a.format = "pdf" ∨ jsToLower a.format = "epub") →
      v1012extract (jsToLower a.format) rows ≠ [] →
      v1012handler env a =
        (.bookList a.query (jsToLower a.format) (v1012extract (jsToLower a.format) rows),
         [.search (libgenSearchUrl a.query)])) ∧
    (∀ (env : V1014Env) (a : V1014Args) (rows : List GenRow),
      env.searchResp = .ok rows → rows ≠ [] → a.bookIndex = none →
      v1014books a rows ≠ [] →
      v1014handler env a =
        (.bookList a.query (jsToLower a.format) a.searchDomain (v1014books a rows),
         [.search (v1014SearchUrl a)])) ∧
    (∀ (env : V106Env) (a : V106Args) (rows : List GenRow),
      env.searchResp = .ok rows → rows ≠ [] → a.debug = true →
      (jsToLower a.format = "pdf" ∨ jsToLower a.format = "epub") →
      v106handler env a =
        (.bookOptions a.query (v106extract rows), [.search (libgenSearchUrl a.query)])) := by
  refine ⟨?_, ?_, ?_, ?_⟩
  · intro env a hits hs hi hne
    have h1 := hits_ne_nil_of_extract hits hne
    have h2 : (aaProcessHits hits).isEmpty = false := by
      cases h : aaProcessHits hits with
      | nil => exact absurd h hne
      | cons x t => rfl
    simp only [aaHandler, hs, hi, Option.getD_some, h1, h2, Bool.false_eq_true,
      if_false]
  · intro env a rows hs hrows hi hfmt hne
    have h1 : rows.isEmpty = false := by
      cases rows with
      | nil => exact absurd rfl hrows
      | cons x t => rfl
    have h2 : (v1012extract (jsToLower a.format) rows).isEmpty = false := by
      cases h : v1012extract (jsToLower a.format) rows with
      | nil => exact absurd h hne
      | cons x t => rfl
    simp only [v1012handler, hs, hi, h1, h2, Bool.false_eq_true, if_false]
    rw [if_neg]
    simp only [not_not]
    exact hfmt
  · intro env a rows hs hrows hi hne
    have h1 : rows.isEmpty = false := by
      cases rows with
      | nil => exact absurd rfl hrows
      | cons x t => rfl
    have h2 : (v1014books a rows).isEmpty = false := by
      cases h : v1014books a rows with
      | nil => exact absurd h hne
      | cons x t => rfl
    simp only [v1014handler, hs, hi, h1, h2, Bool.false_eq_true, if_false]
  · intro env a rows hs hrows hdebug hfmt
    have h1 : rows.isEmpty = false := by
      cases rows with
      | nil => exact absurd rfl hrows
      | cons x t => rfl
    simp only [v106handler, hs, h1, hdebug, Bool.false_eq_true, if_false, if_true]
    rw [if_neg]
    simp only [not_not]
    exact hfmt

/-- C2 witness: all four parts of the amended theorem at concrete runs. -/
theorem c2_no_index_returns_list_witness :
    (aaEnvOk.searchResp = .ok (some [hitA]) ∧ aaProcessHits [hitA] ≠ [] ∧
      aaHandler aaEnvOk { query := "w2" } =
        (.bookList "w2" (aaProcessHits [hitA]), [aaSearchReq { query := "w2" }])) ∧
    (env12.searchResp = .ok [row0] ∧ v1012extract "pdf" [row0] ≠ [] ∧
      v1012handler env12 { query := "w2" } =
        (.bookList "w2" "pdf" (v1012extract "pdf" [row0]),
         [.search (libgenSearchUrl "w2")])) ∧
    (env14.searchResp = .ok [row0] ∧ v1014books { query := "w2" } [row0] ≠ [] ∧
      v1014handler env14 { query := "w2" } =
        (.bookList "w2" "any" .general (v1014books { query := "w2" } [row0]),
         [.search (v1014SearchUrl { query := "w2" })])) ∧
    (env6.searchResp = .ok [row0] ∧
      v106handler env6 { query := "w2", debug := true } =
        (.bookOptions "w2" (v106extract [row0]), [.search (libgenSearchUrl "w2")])) :=
  ⟨⟨rfl, by decide,
    c2_no_index_returns_list.1 aaEnvOk { query := "w2" } [hitA] rfl rfl (by decide)⟩,
   ⟨rfl, by decide,
    c2_no_index_returns_list.2.1 env12 { query := "w2" } [row0] rfl (by decide) rfl
      (Or.inl (by decide)) (by decide)⟩,
   ⟨rfl, by decide,
    c2_no_index_returns_list.2.2.1 env14 { query := "w2" } [row0] rfl (by decide) rfl
      (by decide)⟩,
   ⟨rfl,
    c2_no_index_returns_list.2.2.2 env6 { query := "w2", debug := true } [row0] rfl
      (by decide) rfl (Or.inl (by decide))⟩⟩

/-! ## C3: surfaced candidates carry a contentId or a locator -/

/-- C3, counterexample: the v1.0.12 extraction surfaces `rowNoId` — whose
title anchor href carries no md5 pattern and whose 10th column holds no
anchor — as a candidate with an empty `md5` and no `detailsLink`, so an entry
lacking both contentId and locator is not discarded. -/
theorem c3_v1012_surfaces_identityless_candidate :
    v1012extract "pdf" [rowNoId] = [ghostBook] ∧
    ghostBook.md5 = "" ∧ ghostBook.detailsLink = none :=
  ⟨by decide, rfl, rfl⟩

/-- C3 (amended): the Annas-Archive extraction only surfaces candidates with a
non-empty md5; the fiction extraction of v1.0.14 only surfaces candidates with
a non-empty md5 and a non-empty download-page link; the v1.0.6 extraction only
surfaces candidates with a non-empty md5; but the v1.0.12 extraction
guarantees only a non-empty title — it can surface candidates lacking both
md5 and details link. -/
theorem c3_extraction_identity_invariant :
    (∀ (hits : List Hit), ∀ b ∈ aaProcessHits hits, b.md5 ≠ "") ∧
    (∀ (fmt : String) (rows : List GenRow), ∀ b ∈ ficExtract fmt rows,
      b.md5 ≠ "" ∧ b.downloadPageLink ≠ "") ∧
    (∀ (rows : List GenRow), ∀ b ∈ v106extract rows, b.md5 ≠ "") ∧
    (∀ (fmt : String) (rows : List GenRow), ∀ b ∈ v1012extract fmt rows,
      b.title ≠ "") := by
  refine ⟨?_, ?_, ?_, ?_⟩
  · intro hits b hb
    rw [aaProcessHits, List.mem_filterMap] at hb
    obtain ⟨hit, _, hf⟩ := hb
    by_cases h : hit.md5 = ""
    · rw [if_pos h] at hf; cases hf
    · rw [if_neg h] at hf
      cases hf
      exact h
  · intro fmt rows b hb
    rw [ficExtract, List.mem_filterMap] at hb
    obtain ⟨row, -, hf⟩ := hb
    simp only [ficExtractRow] at hf
    split at hf
    next hcond =>
      cases hf
      exact ⟨hcond.2.1, hcond.2.2.1⟩
    next => cases hf
  · intro rows b hb
    rw [v106extract, List.mem_filterMap] at hb
    obtain ⟨row, -, hf⟩ := hb
    simp only [v106extractRow] at hf
    split at hf
    next hcond =>
      cases hf
      exact hcond.2
    next => cases hf
  · intro fmt rows b hb
    rw [v1012extract, List.mem_filterMap] at hb
    obtain ⟨row, -, hf⟩ := hb
    simp only [v1012extractRow] at hf
    split at hf
    next =>
      split at hf
      next hcond =>
        cases hf
        exact hcond.1
      next => cases hf
    next => cases hf

/-- C3 witness: the amended invariant applied to concrete extractions. -/
theorem c3_extraction_identity_invariant_witness :
    (bookA ∈ aaProcessHits [hitA] ∧ bookA.md5 ≠ "") ∧
    (∃ fb, ficExtract "any" [ficRow] = [fb] ∧ fb.md5 ≠ "" ∧ fb.downloadPageLink ≠ "") := by
  refine ⟨⟨by decide, c3_extraction_identity_invariant.1 [hitA] bookA (by decide)⟩, ?_⟩
  refine ⟨(ficExtractRow "any" ficRow).getD
    { author := "", title := "", series := "", language := "", extension := "",
      size := "", md5 := "", downloadPageLink := "" }, by decide, ?_⟩
  exact c3_extraction_identity_invariant.2.1 "any" [ficRow] _ (by decide)

/-! ## C4: empty candidate list yields the no-results outcome -/

/-- C4: when the search succeeds but extraction (including the server-side
format filter reflected in the payload) yields no candidate, the handler
returns the no-results outcome — never an empty success list — and that
outcome is distinct from the transport-error outcome for every message. -/
theorem c4_empty_extraction_no_results
    (env : AAEnv) (a : AAArgs) (data : Option (List Hit))
    (hs : env.searchResp = .ok data)
    (hempty : aaProcessHits (data.getD []) = []) :
    (aaHandler env a).1 = .noBooksFound a.query a.format ∧
    (∀ books, (aaHandler env a).1 ≠ .bookList a.query books) ∧
    (∀ m, (AAOutcome.noBooksFound a.query a.format) ≠ .connectFailed m) := by
  have hmain : (aaHandler env a).1 = .noBooksFound a.query a.format := by
    simp only [aaHandler, hs]
    cases hd : (data.getD []).isEmpty with
    | true => simp [hd]
    | false => simp [hd, hempty]
  refine ⟨hmain, ?_, ?_⟩
  · intro books h
    rw [hmain] at h
    cases h
  · intro m h
    cases h

/-- C4 witness: a payload whose only hit lacks an md5 extracts to nothing and
produces the no-results outcome. -/
theorem c4_empty_extraction_no_results_witness :
    (aaEnvNoMd5.searchResp = .ok (some [hitNoMd5]) ∧
     aaProcessHits ((some [hitNoMd5]).getD []) = []) ∧
    (aaHandler aaEnvNoMd5 { query := "w4", format := "epub" }).1 =
      .noBooksFound "w4" "epub" :=
  ⟨⟨rfl, by decide⟩,
   (c4_empty_extraction_no_results aaEnvNoMd5 { query := "w4", format := "epub" }
     (some [hitNoMd5]) rfl (by decide)).1⟩

/-! ## C5: the Stage-B mirror-page search -/

/-- C5, counterexample: on a mirror page with no GET-labeled anchor but one
anchor whose target ends in `.pdf`, the claimed fallback pass would find that
anchor, yet the v1.0.12 Step 5 fails with the download-link-not-found outcome:
the code has no fallback pass. -/
theorem c5_no_fallback_pass :
    v1012stageB "T" false pdfPage = .linkNotFound "T" false ∧
    stageBSpecSearch pdfPage =
      some { href := some "http://mirror.example/book.pdf", text := "Download here" } :=
  ⟨by decide, by decide⟩

/-- C5 (amended): Stage B of the v1.0.12 (and v1.0.14 general-domain) mirror
resolution performs a single pass collecting anchors with a truthy href whose
trimmed text upper-cases to exactly `GET`; the first collected anchor wins,
and resolution fails with the download-link-not-found outcome exactly when no
such anchor exists — there is no fallback on binary-file extensions or
download-path substrings. -/
theorem c5_stageB_get_label_only (title : String) (debug : Bool) (anchors : List Anchor) :
    (v1012stageB title debug anchors = .linkNotFound title debug ↔
      ∀ a ∈ anchors, ¬ (a.href.getD "" ≠ "" ∧ jsToUpper (jsTrim a.text) = "GET")) ∧
    (getButtons anchors).head? = anchors.findSome? (fun a =>
      match a.href with
      | some h =>
        if h ≠ "" ∧ jsToUpper (jsTrim a.text) = "GET" then
          some (⟨h, jsTrim a.text⟩ : Link)
        else none
      | none => none) := by
  constructor
  · constructor
    · intro h a ha hcond
      have hbtn : getButtons anchors = [] := by
        rw [v1012stageB] at h
        cases hg : getButtons anchors with
        | nil => rfl
        | cons x t => rw [hg] at h; cases h
      have hgen := List.filterMap_eq_nil_iff.mp hbtn a ha
      cases hhref : a.href with
      | none => rw [hhref] at hcond; exact hcond.1 rfl
      | some hr =>
        rw [hhref] at hgen hcond
        have h2 : (if hr ≠ "" ∧ jsToUpper (jsTrim a.text) = "GET" then
            some (⟨hr, jsTrim a.text⟩ : Link) else none) = none := hgen
        have hc2 : hr ≠ "" ∧ jsToUpper (jsTrim a.text) = "GET" :=
          ⟨hcond.1, hcond.2⟩
        rw [if_pos hc2] at h2
        cases h2
    · intro hnone
      have hbtn : getButtons anchors = [] := by
        cases hg : getButtons anchors with
        | nil => rfl
        | cons x t =>
          exfalso
          have hx : x ∈ getButtons anchors := by rw [hg]; exact List.mem_cons_self x t
          rw [getButtons, List.mem_filterMap] at hx
          obtain ⟨a, ha, hf⟩ := hx
          cases hhref : a.href with
          | none => rw [hhref] at hf; cases hf
          | some hr =>
            rw [hhref] at hf
            have hf2 : (if hr ≠ "" ∧ jsToUpper (jsTrim a.text) = "GET" then
                some (⟨hr, jsTrim a.text⟩ : Link) else none) = some x := hf
            by_cases hc : hr ≠ "" ∧ jsToUpper (jsTrim a.text) = "GET"
            · exact hnone a ha ⟨by rw [hhref]; exact hc.1, hc.2⟩
            · rw [if_neg hc] at hf2; cases hf2
      rw [v1012stageB, hbtn]
  · rw [getButtons, head?_filterMap]

/-! ## C6: interrupted downloads leave no partial file -/

/-- C6: in the streaming scraper, whenever the destination file has been
opened and the download request succeeded but the stream is interrupted (a
writer error or a response-stream error), the trace unlinks the destination
path, no file remains there after replaying the effects, and the surfaced
result is the rejection carrying the error. -/
theorem c6_interrupted_download_cleans_up
    (env : ScrEnv) (a : ScrArgs) (p m : String)
    (hopen : ScrEvent.openWrite p ∈ (scrHandler env a).2)
    (hreq : env.downloadReqResp = .ok ())
    (hstream : env.streamOutcome = .writeError m ∨ env.streamOutcome = .streamError m) :
    ScrEvent.unlink p ∈ (scrHandler env a).2 ∧
    fileRemains (scrHandler env a).2 p = false ∧
    ∃ msg, (scrHandler env a).1 = .rejected msg := by
  rcases hsr : env.searchResp with e | rows
  · simp [scrHandler, hsr] at hopen
  · rcases hfb : scrFindBook (jsToLower a.format) a.query rows with _ | ⟨bu, bt⟩
    · simp [scrHandler, hsr, hfb] at hopen
    · rcases hbp : env.bookPageResp with e | anchors
      · simp [scrHandler, hsr, hfb, hbp] at hopen
      · rcases hfl : scrFindDownloadLink (jsToLower a.format) bt anchors with _ | rawLink
        · simp [scrHandler, hsr, hfb, hbp, hfl] at hopen
        · rcases hed : env.ensureDirErr with _ | m2
          · rcases hstream with hst | hst
            · simp only [scrHandler, hsr, hfb, hbp, hfl, hed, hreq, hst] at hopen ⊢
              simp at hopen
              subst hopen
              refine ⟨by simp, by simp [fileRemains], ⟨_, rfl⟩⟩
            · simp only [scrHandler, hsr, hfb, hbp, hfl, hed, hreq, hst] at hopen ⊢
              simp at hopen
              subst hopen
              refine ⟨by simp, by simp [fileRemains], ⟨_, rfl⟩⟩
          · simp [scrHandler, hsr, hfb, hbp, hfl, hed] at hopen

/-- C6 witness: the theorem applied to the concrete interrupted run `env7`. -/
theorem c6_interrupted_download_cleans_up_witness :
    (ScrEvent.openWrite "/home/user/Downloads/Stream_Book.pdf" ∈
       (scrHandler env7 { query := "stream book" }).2 ∧
     env7.downloadReqResp = .ok () ∧
     env7.streamOutcome = .streamError "boom") ∧
    (ScrEvent.unlink "/home/user/Downloads/Stream_Book.pdf" ∈
       (scrHandler env7 { query := "stream book" }).2 ∧
     fileRemains (scrHandler env7 { query := "stream book" }).2
       "/home/user/Downloads/Stream_Book.pdf" = false ∧
     ∃ msg, (scrHandler env7 { query := "stream book" }).1 = .rejected msg) :=
  ⟨⟨by decide, rfl, rfl⟩,
   c6_interrupted_download_cleans_up env7 { query := "stream book" }
     "/home/user/Downloads/Stream_Book.pdf" "boom" (by decide) rfl (Or.inr rfl)⟩

/-! ## C7: error paths and the handler boundary -/

/-- C7, counterexample: on the concrete run `env7` the response stream errors
mid-download and the scraper handler ends in a rejection of the promise it
returned — the error propagates past the handler instead of coming back as a
structured text result. -/
theorem c7_stream_error_rejects_past_handler :
    (scrHandler env7 { query := "stream book" }).1 =
      .rejected "Failed to download book (stream error): boom" := by decide

/-- C7 (amended): every scraper error path other than a mid-stream
interruption resolves with a structured result — whenever the stream outcome
is `finished` (in particular whenever the streaming phase is never reached),
the handler resolves; only writer/stream errors after the streaming phase
begins reject the returned promise. -/
theorem c7_resolves_unless_stream_interrupted
    (env : ScrEnv) (a : ScrArgs) (hfin : env.streamOutcome = .finished) :
    ∃ o, (scrHandler env a).1 = .resolved o := by
  rcases hsr : env.searchResp with e | rows
  · exact ⟨scrCatch (.axios e), by simp [scrHandler, hsr]⟩
  · rcases hfb : scrFindBook (jsToLower a.format) a.query rows with _ | ⟨bu, bt⟩
    · exact ⟨.notFoundOnPage a.query (jsToLower a.format), by simp [scrHandler, hsr, hfb]⟩
    · rcases hbp : env.bookPageResp with e | anchors
      · exact ⟨scrCatch (.axios e), by simp [scrHandler, hsr, hfb, hbp]⟩
      · rcases hfl : scrFindDownloadLink (jsToLower a.format) bt anchors with _ | rawLink
        · exact ⟨.noDirectLink bt, by simp [scrHandler, hsr, hfb, hbp, hfl]⟩
        · rcases hed : env.ensureDirErr with _ | m2
          · rcases hdl : env.downloadReqResp with e | u
            · exact ⟨scrCatch (.axios e), by simp [scrHandler, hsr, hfb, hbp, hfl, hed, hdl]⟩
            · exact ⟨.downloadSuccess bt
                ((if sanitizeFilename bt ≠ "" then sanitizeFilename bt else "downloaded_book") ++
                  "." ++ jsToLower a.format),
                by simp [scrHandler, hsr, hfb, hbp, hfl, hed, hdl, hfin]⟩
          · exact ⟨scrCatch (.plain m2), by simp [scrHandler, hsr, hfb, hbp, hfl, hed]⟩

/-- C7 witness: the amended theorem at the concrete run whose stream
finishes. -/
theorem c7_resolves_unless_stream_interrupted_witness :
    env7fin.streamOutcome = .finished ∧
    ∃ o, (scrHandler env7fin { query := "stream book" }).1 = .resolved o :=
  ⟨rfl, c7_resolves_unless_stream_interrupted env7fin { query := "stream book" } rfl⟩

/-! ## C8: the result limit -/

/-- C8, counterexample: with `limit = 10` (the default) but a payload of
eleven md5-bearing hits, the surfaced candidate list has eleven entries — the
client performs no truncation to the first `resultLimit` after filtering. -/
theorem c8_no_client_truncation :
    (aaHandler aaEnv11 { query := "q" }).1 = .bookList "q" (aaProcessHits hits11) ∧
    (aaProcessHits hits11).length = 11 ∧
    ({ query := "q" } : AAArgs).limit = 10 :=
  ⟨by decide, by decide, rfl⟩

/-- C8 (amended): the result limit is only forwarded upstream — every trace
starts with the search request carrying `limit` stringified; client-side the
surfaced list is exactly the extracted candidates of the payload in order,
with no truncation, so it is bounded by the hit count the upstream chose to
return rather than by `resultLimit`. -/
theorem c8_limit_forwarded_not_truncated :
    (∀ (env : AAEnv) (a : AAArgs), ((aaHandler env a).2).head? = some (aaSearchReq a)) ∧
    (∀ (env : AAEnv) (a : AAArgs) (hits : List Hit),
      env.searchResp = .ok (some hits) → a.bookIndex = none →
      aaProcessHits hits ≠ [] →
      (aaHandler env a).1 = .bookList a.query (aaProcessHits hits)) ∧
    (∀ hits : List Hit, (aaProcessHits hits).length ≤ hits.length) := by
  refine ⟨?_, ?_, ?_⟩
  · intro env a
    rcases hsr : env.searchResp with e | data
    · simp [aaHandler, hsr]
    · simp only [aaHandler, hsr]
      (repeat' split) <;> rfl
  · intro env a hits hs hi hne
    have h1 := hits_ne_nil_of_extract hits hne
    have h2 : (aaProcessHits hits).isEmpty = false := by
      cases h : aaProcessHits hits with
      | nil => exact absurd h hne
      | cons x t => rfl
    simp only [aaHandler, hs, hi, Option.getD_some, h1, h2, Bool.false_eq_true,
      if_false]
  · intro hits
    exact List.length_filterMap_le _ _

/-- C8 witness: the amended theorem at concrete runs. -/
theorem c8_limit_forwarded_not_truncated_witness :
    ((aaHandler aaEnv11 { query := "q8" }).2.head? =
       some (aaSearchReq { query := "q8" })) ∧
    (aaEnv11.searchResp = .ok (some hits11) ∧
      (aaHandler aaEnv11 { query := "q8" }).1 = .bookList "q8" (aaProcessHits hits11)) ∧
    (aaProcessHits hits11).length ≤ hits11.length :=
  ⟨c8_limit_forwarded_not_truncated.1 aaEnv11 { query := "q8" },
   ⟨rfl, c8_limit_forwarded_not_truncated.2.1 aaEnv11 { query := "q8" } hits11 rfl rfl
     (by decide)⟩,
   c8_limit_forwarded_not_truncated.2.2 hits11⟩

/-! ## C9: the v1.0.6 success path is unreachable -/

/-- The v1.0.6 catch block never produces the success confirmation. -/
theorem v106Catch_ne_success (e : JsErr) (t au fe p : String) :
    v106Catch e ≠ .successSaved t au fe p := by
  cases e with
  | axios a =>
    rw [v106Catch]
    split
    · intro h; cases h
    · split
      · intro h; cases h
      · intro h; cases h
  | plain m => intro h; cases h

/-- C9: in the v1.0.6 script, every invocation whose trace reaches the file
download with a successful response ends in the generic internal error of the
undefined `bookTitle` identifier, and no invocation whatsoever can produce the
success confirmation message. -/
theorem c9_v106_success_unreachable :
    (∀ (env : V106Env) (a : V106Args) (u : String) (fr : AAFileResp),
      env.downloadResp = .ok fr →
      V106Req.download u ∈ (v106handler env a).2 →
      (v106handler env a).1 = .genericError "bookTitle is not defined") ∧
    (∀ (env : V106Env) (a : V106Args) (t au fe p : String),
      (v106handler env a).1 ≠ .successSaved t au fe p) := by
  constructor
  · intro env a u fr hok hmem
    by_cases hfmt : jsToLower a.format = "pdf" ∨ jsToLower a.format = "epub"
    case neg => simp [v106handler, hfmt] at hmem
    case pos =>
      rcases hsr : env.searchResp with e | rows
      · simp [v106handler, hfmt, hsr] at hmem
      · by_cases hrows : rows.isEmpty
        · simp [v106handler, hfmt, hsr, hrows] at hmem
        · by_cases hdbg : a.debug
          · simp [v106handler, hfmt, hsr, hrows, hdbg] at hmem
          · rcases hbooks : v106extract rows with _ | ⟨sb, rest⟩
            · simp [v106handler, hfmt, hsr, hrows, hdbg, hbooks] at hmem
            · rcases hbp : env.bookPageResp with e | pageAnchors
              · simp [v106handler, hfmt, hsr, hrows, hdbg, hbooks, hbp] at hmem
              · rcases hml : mirrorLinksFor sb.title sb.md5 (presentLinks pageAnchors)
                  with _ | ⟨ml, mls⟩
                · simp [v106handler, hfmt, hsr, hrows, hdbg, hbooks, hbp, hml] at hmem
                · rcases hmp : env.mirrorPageResp with e | dlAnchors
                  · simp [v106handler, hfmt, hsr, hrows, hdbg, hbooks, hbp, hml, hmp] at hmem
                  · rcases hgb : getButtons dlAnchors with _ | ⟨db, dbs⟩
                    · simp [v106handler, hfmt, hsr, hrows, hdbg, hbooks, hbp, hml, hmp,
                        hgb] at hmem
                    · simp [v106handler, hfmt, hsr, hrows, hdbg, hbooks, hbp, hml, hmp,
                        hgb, hok, v106Catch]
  · intro env a t au fe p
    by_cases hfmt : jsToLower a.format = "pdf" ∨ jsToLower a.format = "epub"
    case neg => simp [v106handler, hfmt]
    case pos =>
      rcases hsr : env.searchResp with e | rows
      · simpa [v106handler, hfmt, hsr] using v106Catch_ne_success (.axios e) t au fe p
      · by_cases hrows : rows.isEmpty
        · simp [v106handler, hfmt, hsr, hrows]
        · by_cases hdbg : a.debug
          · simp [v106handler, hfmt, hsr, hrows, hdbg]
          · rcases hbooks : v106extract rows with _ | ⟨sb, rest⟩
            · simp [v106handler, hfmt, hsr, hrows, hdbg, hbooks]
            · rcases hbp : env.bookPageResp with e | pageAnchors
              · simpa [v106handler, hfmt, hsr, hrows, hdbg, hbooks, hbp] using
                  v106Catch_ne_success (.axios e) t au fe p
              · rcases hml : mirrorLinksFor sb.title sb.md5 (presentLinks pageAnchors)
                  with _ | ⟨ml, mls⟩
                · simp [v106handler, hfmt, hsr, hrows, hdbg, hbooks, hbp, hml]
                · rcases hmp : env.mirrorPageResp with e | dlAnchors
                  · simpa [v106handler, hfmt, hsr, hrows, hdbg, hbooks, hbp, hml, hmp]
                      using v106Catch_ne_success (.axios e) t au fe p
                  · rcases hgb : getButtons dlAnchors with _ | ⟨db, dbs⟩
                    · simp [v106handler, hfmt, hsr, hrows, hdbg, hbooks, hbp, hml, hmp, hgb]
                    · rcases hdl : env.downloadResp with e | fr
                      · simpa [v106handler, hfmt, hsr, hrows, hdbg, hbooks, hbp, hml,
                          hmp, hgb, hdl] using v106Catch_ne_success (.axios e) t au fe p
                      · simp [v106handler, hfmt, hsr, hrows, hdbg, hbooks, hbp, hml,
                          hmp, hgb, hdl, v106Catch]

/-- C9 witness: the theorem applied to the concrete run `env6` that reaches a
successful download. -/
theorem c9_v106_success_unreachable_witness :
    (env6.downloadResp = .ok { contentType := some "application/pdf" } ∧
     V106Req.download "http://download.books.ms/main/x.pdf" ∈
       (v106handler env6 { query := "my title" }).2) ∧
    (v106handler env6 { query := "my title" }).1 =
      .genericError "bookTitle is not defined" :=
  ⟨⟨rfl, by decide⟩,
   c9_v106_success_unreachable.1 env6 { query := "my title" }
     "http://download.books.ms/main/x.pdf" { contentType := some "application/pdf" }
     rfl (by decide)⟩

/-! ## C10: fractional in-range selection indexes -/

/-- C10: a numeric `bookIndex` that is not an integer but lies inside
`[0, length)` passes the range validation, the array lookup yields undefined,
and the invocation ends in the generic internal error of the TypeError raised
when reading a property of undefined — never in the invalid-index outcome. -/
theorem c10_fractional_index_generic_error
    (env : AAEnv) (a : AAArgs) (hits : List Hit) (q : ℚ)
    (hs : env.searchResp = .ok (some hits))
    (hi : a.bookIndex = some q)
    (hden : q.den ≠ 1)
    (h0 : 0 ≤ q)
    (hlt : q < ((aaProcessHits hits).length : ℚ)) :
    (aaHandler env a).1 =
      .genericError "Cannot read properties of undefined (reading title)" ∧
    ∀ i m, (aaHandler env a).1 ≠ .invalidIndex i m := by
  have hne : aaProcessHits hits ≠ [] := by
    intro h
    rw [h] at hlt
    simp only [List.length_nil, Nat.cast_zero] at hlt
    exact absurd hlt (not_lt.mpr h0)
  have h1 := hits_ne_nil_of_extract hits hne
  have h2 : (aaProcessHits hits).isEmpty = false := by
    cases h : aaProcessHits hits with
    | nil => exact absurd h hne
    | cons x t => rfl
  have hcond : ¬ (q < 0 ∨ ((aaProcessHits hits).length : ℚ) ≤ q) := by
    push_neg
    exact ⟨h0, hlt⟩
  have hget : jsArrayGet (aaProcessHits hits) q = none := by
    rw [jsArrayGet, if_neg]
    intro hc
    exact hden hc.1
  have hrun : (aaHandler env a).1 =
      .genericError "Cannot read properties of undefined (reading title)" := by
    simp only [aaHandler, hs, hi, Option.getD_some, h1, h2, Bool.false_eq_true,
      if_false]
    rw [if_neg hcond, hget]
    rfl
  exact ⟨hrun, fun i m h => by rw [hrun] at h; cases h⟩

/-- C10 witness: the theorem at the concrete index one half against a
one-candidate list. -/
theorem c10_fractional_index_generic_error_witness :
    (q05.den ≠ 1 ∧ (0 : ℚ) ≤ q05 ∧ q05 < ((aaProcessHits [hitA]).length : ℚ)) ∧
    (aaHandler aaEnvOk { query := "w10", bookIndex := some q05 }).1 =
      .genericError "Cannot read properties of undefined (reading title)" := by
  have hlen : ((aaProcessHits [hitA]).length : ℚ) = 1 := by
    rw [show aaProcessHits [hitA] = [bookA] from by decide]
    norm_num
  have h0 : (0 : ℚ) ≤ q05 := by rw [q05_eq_half]; norm_num
  have hlt : q05 < ((aaProcessHits [hitA]).length : ℚ) := by
    rw [hlen, q05_eq_half]; norm_num
  exact ⟨⟨by decide, h0, hlt⟩,
    (c10_fractional_index_generic_error aaEnvOk { query := "w10", bookIndex := some q05 }
      [hitA] q05 rfl rfl (by decide) h0 hlt).1⟩

end LibgenMCP
